import Mathlib

/-!
# SkillTrack login front-end (`static/js/auth.js`)

A shallow embedding of the two functions of `auth.js`, `selectRole` and
`handleLogin`, together with the part of the JavaScript host they observe:
strings, the values `response.json()` can produce, property reads, string
conversion, the element list of the document, `localStorage`, and the
externally visible effects (alerts, console output, the `fetch` call,
navigation, scrolling).
-/

namespace SkillTrack

/-! ## JavaScript strings and values -/

/-- A JavaScript string is its sequence of UTF-16 code units. -/
abbrev JsString := List Nat

/-- The code units of a source literal (every literal of `auth.js` is ASCII). -/
def js (s : String) : JsString := s.data.map Char.toNat

/-- A Number value, as far as `auth.js` can observe one: the text that
`Number::toString` gives for it and whether it is truthy (neither zero nor NaN). -/
structure JsNumber where
  text : JsString
  truthy : Bool

/-- The values that `response.json()` can resolve to, and `undefined`, which
reading an absent property yields.  An object is its list of own properties. -/
inductive JsVal where
  | undefined : JsVal
  | null : JsVal
  | bool (b : Bool) : JsVal
  | num (n : JsNumber) : JsVal
  | str (s : JsString) : JsVal
  | arr (items : List JsVal) : JsVal
  | obj (props : List (JsString × JsVal)) : JsVal

/-- The two TypeErrors the engine itself can raise while `auth.js` runs. -/
inductive TypeErrorKind where
  /-- Reading property `prop` of `undefined` (`ofNull = false`) or `null`. -/
  | readProperty (ofNull : Bool) (prop : JsString) : TypeErrorKind
  /-- Conversion `ToString` of an object that has no callable `toString`/`valueOf`
  giving a primitive ("Cannot convert object to primitive value"). -/
  | toPrimitive : TypeErrorKind
  deriving DecidableEq

/-- What the host supplies and `auth.js` does not define: the Unicode
upper-casing of a string, the (engine-specific) message text of an
engine-raised TypeError, and how the browser's storage answers.
`localStorageError` is the message of the exception that reading
`localStorage` throws when storage is not available (`none` if it is);
`setItemError store k v` is the message of the exception that
`localStorage.setItem(k, v)` throws on the entries `store`, for instance when
the quota would be exceeded (`none` if the write is accepted). -/
structure Host where
  toUpperCase : JsString → JsString
  typeErrorMessage : TypeErrorKind → JsString
  localStorageError : Option JsString
  setItemError : List (JsString × JsString) → JsString → JsString → Option JsString

/-- Own-property lookup in an object's property list. -/
def lookupProp (k : JsString) : List (JsString × JsVal) → Option JsVal
  | [] => none
  | (k', v) :: rest => if k' = k then some v else lookupProp k rest

/-- The property read `v.k` for a property name `k` that no built-in prototype
defines (true of `error`, `session`, `access_token`, `role`, `full_name`):
a TypeError on `undefined` and `null`, the own property of an object if it
has one, and `undefined` otherwise (primitives, arrays, absent property). -/
def getProp (v : JsVal) (k : JsString) : Except TypeErrorKind JsVal :=
  match v with
  | .undefined => .error (.readProperty false k)
  | .null => .error (.readProperty true k)
  | .obj props =>
    match lookupProp k props with
    | some w => .ok w
    | none => .ok .undefined
  | _ => .ok .undefined

/-- ToBoolean. -/
def truthy : JsVal → Bool
  | .undefined => false
  | .null => false
  | .bool b => b
  | .num n => n.truthy
  | .str s => !s.isEmpty
  | .arr _ => true
  | .obj _ => true

mutual
/-- ToString, the conversion `localStorage.setItem`, `new Error` and template
literals apply to their argument.  An array is joined with `,` by
`Array.prototype.join`.  For an object, OrdinaryToPrimitive tries `toString`
and then `valueOf`: a value parsed from JSON is never callable, so an object
with an own property `toString` has no usable `toString`, its `valueOf`
(own and not callable, or `Object.prototype.valueOf`, which returns the object
itself) gives no primitive, and the conversion throws a TypeError; any other
parsed object gets `[object Object]` from `Object.prototype.toString`. -/
def toStr : JsVal → Except TypeErrorKind JsString
  | .undefined => .ok (js "undefined")
  | .null => .ok (js "null")
  | .bool b => .ok (if b then js "true" else js "false")
  | .num n => .ok n.text
  | .str s => .ok s
  | .arr items => joinItems items
  | .obj props =>
    match lookupProp (js "toString") props with
    | some _ => .error .toPrimitive
    | none => .ok (js "[object Object]")
termination_by structural v => v
/-- The loop of `Array.prototype.join` with separator `,`: the elements are
converted in order, `undefined` and `null` contributing the empty string. -/
def joinItems : List JsVal → Except TypeErrorKind JsString
  | [] => .ok []
  | x :: rest =>
    let first : Except TypeErrorKind JsString :=
      match x with
      | .undefined => .ok []
      | .null => .ok []
      | _ => toStr x
    match first with
    | .error e => .error e
    | .ok s =>
      if rest.isEmpty then .ok s
      else
        match joinItems rest with
        | .error e => .error e
        | .ok t => .ok (s ++ js "," ++ t)
termination_by structural l => l
end

/-- The strict comparison `s === v` of a string `s` with a value `v`. -/
def strictEqStr (s : JsString) : JsVal → Bool
  | .str t => decide (s = t)
  | _ => false

/-- The method `s.charAt(i)`: the code unit at index `i` as a string, empty past the end. -/
def charAt (s : JsString) (i : Nat) : JsString := (s.drop i).take 1

/-- The method `s.slice(i)` for a non-negative start `i`. -/
def slice (s : JsString) (i : Nat) : JsString := s.drop i

/-! ## The document, the store and the effects -/

/-- An element of the page, with the attributes and properties `auth.js`
reads or writes.  `ancestorIds` are the ids of the element's ancestors, which
is what the selector `#loginForm button` looks at.  The elements whose
`innerText` is assigned (title, button) hold text only.  `value` is what
reading `.value` yields; an element that has no such property is given the
empty string, which line 40 treats as it treats `undefined`. -/
structure Element where
  tag : JsString
  id : JsString
  ancestorIds : List JsString
  classList : List JsString
  innerText : JsString
  value : JsString
  disabled : Bool
  deriving DecidableEq

/-- An effect visible outside the page state. -/
inductive Event where
  | alert (message : JsString) : Event
  | consoleWarn (message : JsString) : Event
  | consoleError (label : JsString) (errMessage : JsString) : Event
  /-- The call `fetch(url, {method, headers: {'Content-Type': contentType},
  body: JSON.stringify({email, password})})`. -/
  | fetch (url method contentType email password : JsString) : Event
  /-- An assignment to `window.location.href` (the page is served over http, so the
  relative target resolves and the assignment itself does not throw). -/
  | navigate (href : JsString) : Event
  /-- A call of `scrollIntoView` on the element at this index of the document. -/
  | scrollIntoView (element : Nat) : Event
  deriving DecidableEq

/-- The mutable state `auth.js` works on: its global `selectedRole` (`none` is
`null`), the elements of the document in tree order, and `localStorage` as
its ordered list of entries. -/
structure Page where
  selectedRole : Option JsString
  document : List Element
  localStorage : List (JsString × JsString)
  deriving DecidableEq

/-- The result of running a function of `auth.js`: the state it leaves, the
effects it produced in order, and the TypeError that escaped it, if any. -/
structure Outcome where
  page : Page
  events : List Event
  uncaught : Option TypeErrorKind
  deriving DecidableEq

/-- Index of the first element satisfying `p`. -/
def findIndex (p : Element → Bool) : List Element → Option Nat
  | [] => none
  | e :: es => if p e then some 0 else (findIndex p es).map (· + 1)

/-- The reference `document.getElementById(id)` returns: the index of the first element
in tree order with that id. -/
def getElementById (doc : List Element) (id : JsString) : Option Nat :=
  findIndex (fun e => decide (e.id = id)) doc

/-- The reference `document.querySelector('#loginForm button')` returns: the index of the
first `button` element that has an ancestor with id `loginForm`. -/
def querySelectorLoginButton (doc : List Element) : Option Nat :=
  findIndex (fun e => decide (e.tag = js "button") && decide (js "loginForm" ∈ e.ancestorIds)) doc

/-- The element `document.getElementById(id)` refers to, as it currently is. -/
def getElement (doc : List Element) (id : JsString) : Option Element :=
  doc.find? (fun e => decide (e.id = id))

/-- The element `document.querySelector('#loginForm button')` refers to, as it currently is. -/
def loginButton (doc : List Element) : Option Element :=
  doc.find? (fun e => decide (e.tag = js "button") && decide (js "loginForm" ∈ e.ancestorIds))

/-- Apply `f` to the element at index `i` (a write through an element reference). -/
def modifyAt (i : Nat) (f : Element → Element) : List Element → List Element
  | [] => []
  | e :: es =>
    match i with
    | 0 => f e :: es
    | j + 1 => e :: modifyAt j f es

/-- The call `classList.remove(t)`. -/
def classRemove (t : JsString) (cl : List JsString) : List JsString :=
  cl.filter (fun c => decide (c ≠ t))

/-- The call `classList.add(t)`: appended unless already present. -/
def classAdd (t : JsString) (cl : List JsString) : List JsString :=
  if t ∈ cl then cl else cl ++ [t]

/-- The call `classList.remove(t1, t2, ...)`. -/
def removeTokens (ts : List JsString) (cl : List JsString) : List JsString :=
  ts.foldl (fun acc t => classRemove t acc) cl

/-- The call `classList.add(t1, t2, ...)`. -/
def addTokens (ts : List JsString) (cl : List JsString) : List JsString :=
  ts.foldl (fun acc t => classAdd t acc) cl

/-- The four classes that mark the active role card. -/
def activeClasses : List JsString :=
  [js "active", js "ring-2", js "ring-indigo-600", js "bg-indigo-50"]

/-- The entries after an accepted `localStorage.setItem(k, v)`: the value of an existing
key is replaced in place, a new key is appended. -/
def setItem (k v : JsString) : List (JsString × JsString) → List (JsString × JsString)
  | [] => [(k, v)]
  | (k', v') :: rest => if k' = k then (k, v) :: rest else (k', v') :: setItem k v rest

/-- The call `localStorage.getItem(k)` (`none` is `null`). -/
def getItem (k : JsString) : List (JsString × JsString) → Option JsString
  | [] => none
  | (k', v') :: rest => if k' = k then some v' else getItem k rest

/-! ## `selectRole` -/

/-- Body of the `forEach` over the `.role-card` elements (lines 8-11). -/
def resetCard (card : Element) : Element :=
  { card with classList := addTokens [js "border-white"] (removeTokens activeClasses card.classList) }

/-- The update of the active card (lines 15-16). -/
def activateCard (card : Element) : Element :=
  { card with classList := removeTokens [js "border-white"] (addTokens activeClasses card.classList) }

/-- The title text of line 26:
`role.charAt(0).toUpperCase() + role.slice(1)` followed by ` Login`. -/
def titleText (host : Host) (role : JsString) : JsString :=
  (host.toUpperCase (charAt role 0) ++ slice role 1) ++ js " Login"

/-- The function `selectRole(role)` for a string `role` (lines 3-31). -/
def selectRole (host : Host) (role : JsString) (p : Page) : Outcome :=
  -- selectedRole = role;
  let selected := some role
  -- document.querySelectorAll('.role-card').forEach(...)
  let doc1 := p.document.map
    (fun card => if js "role-card" ∈ card.classList then resetCard card else card)
  -- const activeCard = document.getElementById(`card-${role}`); if (activeCard) {...}
  let doc2 :=
    match getElementById doc1 (js "card-" ++ role) with
    | some activeCard => modifyAt activeCard activateCard doc1
    | none => doc1
  -- const form = document.getElementById('loginForm'); form.classList.remove('hidden');
  match getElementById doc2 (js "loginForm") with
  | none =>
    { page := { selectedRole := selected, document := doc2, localStorage := p.localStorage },
      events := [],
      uncaught := some (.readProperty true (js "classList")) }
  | some form =>
    let doc3 := modifyAt form
      (fun e => { e with classList := removeTokens [js "hidden"] e.classList }) doc2
    -- const title = document.getElementById('selectedRoleTitle'); if (title) {...}
    let doc4 :=
      match getElementById doc3 (js "selectedRoleTitle") with
      | some title => modifyAt title (fun e => { e with innerText := titleText host role }) doc3
      | none => doc3
    -- form.scrollIntoView({ behavior: 'smooth', block: 'start' });
    { page := { selectedRole := selected, document := doc4, localStorage := p.localStorage },
      events := [.scrollIntoView form],
      uncaught := none }

/-! ## `handleLogin` -/

/-- How the single exchange with `/api/login` ends: `fetch` rejects with an
error carrying `message`; or a response with `status` arrives whose body is
not JSON, so that `response.json()` rejects with a SyntaxError carrying
`message`; or a response with `status` arrives whose body parses to `data`. -/
inductive Exchange where
  | fetchRejected (message : JsString) : Exchange
  | bodyNotJson (status : Nat) (message : JsString) : Exchange
  | responded (status : Nat) (data : JsVal) : Exchange

/-- The getter `response.ok`: the status is in the range 200-299. -/
def responseOk (status : Nat) : Bool := decide (200 ≤ status) && decide (status ≤ 299)

/-- The fixed message of line 70. -/
def genericMessage : JsString := js "Login failed. Please check your credentials."

/-- The message of line 41. -/
def validationMessage : JsString := js "Please enter both email and password."

/-- The three keys of the durable store. -/
def tokenKey : JsString := js "sb-access-token"
/-- Key of the role entry. -/
def roleKey : JsString := js "userRole"
/-- Key of the full-name entry. -/
def fullNameKey : JsString := js "userFullName"

/-- State of the `try` block when it is left: the store, the effects so far,
and the `message` of the error thrown, if one was. -/
structure TryResult where
  store : List (JsString × JsString)
  events : List Event
  thrown : Option JsString

/-- The condition and body of lines 83-85: the events of the `console.warn`,
or the TypeError raised while evaluating it. -/
def roleCheck (selectedRole : Option JsString) (data : JsVal) :
    Except TypeErrorKind (List Event) :=
  match selectedRole with
  | none => .ok []
  | some s =>
    -- selectedRole && ...
    if truthy (.str s) then
      match getProp data (js "role") with
      | .error k => .error k
      | .ok r =>
        -- ... selectedRole !== data.role
        if strictEqStr s r then .ok []
        else
          match toStr r with
          | .error k => .error k
          | .ok rs =>
            .ok [.consoleWarn (js "User selected " ++ s ++ js " but account is " ++ rs ++
              js ". Redirecting based on DB role.")]
    else .ok []

/-- One statement `localStorage.setItem(key, <expr>)`, `arg` being the outcome of
evaluating `<expr>`: reading `localStorage` may throw; then the argument is evaluated and
converted to a string, either of which may throw a TypeError; then the browser accepts the
write or throws.  The result is the message of what was thrown, the entries being as before,
or the entries after the write. -/
def storeItem (host : Host) (key : JsString) (arg : Except TypeErrorKind JsVal)
    (store : List (JsString × JsString)) : Except JsString (List (JsString × JsString)) :=
  match host.localStorageError with
  | some m => .error m
  | none =>
    match arg.bind toStr with
    | .error k => .error (host.typeErrorMessage k)
    | .ok v =>
      match host.setItemError store key v with
      | some m => .error m
      | none => .ok (setItem key v store)

/-- The expression `data.session.access_token` of line 75. -/
def tokenArg (data : JsVal) : Except TypeErrorKind JsVal :=
  (getProp data (js "session")).bind (fun session => getProp session (js "access_token"))

/-- Lines 67-88: the `try` block from the point where `fetch` has been called. -/
def tryBlock (host : Host) (ex : Exchange) (selectedRole : Option JsString)
    (store : List (JsString × JsString)) : TryResult :=
  match ex with
  | .fetchRejected m => { store := store, events := [], thrown := some m }
  | .bodyNotJson _ m => { store := store, events := [], thrown := some m }
  | .responded status data =>
    if !responseOk status then
      -- throw new Error(data.error || "Login failed. Please check your credentials.");
      match getProp data (js "error") with
      | .error k => { store := store, events := [], thrown := some (host.typeErrorMessage k) }
      | .ok e =>
        if truthy e then
          match toStr e with
          | .error k => { store := store, events := [], thrown := some (host.typeErrorMessage k) }
          | .ok m => { store := store, events := [], thrown := some m }
        else { store := store, events := [], thrown := some genericMessage }
    else
      -- localStorage.setItem('sb-access-token', data.session.access_token);
      match storeItem host tokenKey (tokenArg data) store with
      | .error m => { store := store, events := [], thrown := some m }
      | .ok store1 =>
        -- localStorage.setItem('userRole', data.role);
        match storeItem host roleKey (getProp data (js "role")) store1 with
        | .error m => { store := store1, events := [], thrown := some m }
        | .ok store2 =>
          -- localStorage.setItem('userFullName', data.full_name);
          match storeItem host fullNameKey (getProp data (js "full_name")) store2 with
          | .error m => { store := store2, events := [], thrown := some m }
          | .ok store3 =>
            -- if (selectedRole && selectedRole !== data.role) console.warn(...)
            match roleCheck selectedRole data with
            | .error k =>
              { store := store3, events := [], thrown := some (host.typeErrorMessage k) }
            | .ok warned =>
              -- window.location.href = "/dashboard";
              { store := store3, events := warned ++ [.navigate (js "/dashboard")],
                thrown := none }

/-- The function `handleLogin()` (lines 33-99), given how the exchange with the backend ends. -/
def handleLogin (host : Host) (ex : Exchange) (p : Page) : Outcome :=
  -- const email = emailInput.value; const password = passwordInput.value;
  match getElement p.document (js "email"), getElement p.document (js "password") with
  | none, _ => { page := p, events := [], uncaught := some (.readProperty true (js "value")) }
  | some _, none =>
    { page := p, events := [], uncaught := some (.readProperty true (js "value")) }
  | some emailInput, some passwordInput =>
    let email := emailInput.value
    let password := passwordInput.value
    -- if(!email || !password)
    if !truthy (.str email) || !truthy (.str password) then
      { page := p, events := [.alert validationMessage], uncaught := none }
    else
      -- const btn = document.querySelector('#loginForm button');
      let btn := querySelectorLoginButton p.document
      -- const originalBtnText = btn ? btn.innerText : 'Sign In';
      let originalBtnText :=
        match loginButton p.document with
        | some b => b.innerText
        | none => js "Sign In"
      -- if(btn) { btn.innerText = "Verifying Credentials..."; btn.disabled = true; }
      let busyDoc :=
        match btn with
        | some b => modifyAt b
            (fun e => { e with innerText := js "Verifying Credentials...", disabled := true })
            p.document
        | none => p.document
      let request : Event :=
        .fetch (js "/api/login") (js "POST") (js "application/json") email password
      let r := tryBlock host ex p.selectedRole p.localStorage
      match r.thrown with
      | none =>
        { page := { selectedRole := p.selectedRole, document := busyDoc, localStorage := r.store },
          events := request :: r.events,
          uncaught := none }
      | some message =>
        -- catch (err) { console.error("Login Error:", err); alert(err.message); ... }
        let resetDoc :=
          match btn with
          | some b => modifyAt b
              (fun e => { e with innerText := originalBtnText, disabled := false }) busyDoc
          | none => busyDoc
        { page := { selectedRole := p.selectedRole, document := resetDoc, localStorage := r.store },
          events := request :: (r.events ++
            [.consoleError (js "Login Error:") message, .alert message]),
          uncaught := none }

/-! ## A concrete page, host and response body, for evaluation -/

/-- The login form of the sample page, initially hidden. -/
def sampleForm : Element :=
  { tag := js "div", id := js "loginForm", ancestorIds := [],
    classList := [js "hidden"], innerText := [], value := [], disabled := false }

/-- The title element of the sample page. -/
def sampleTitle : Element :=
  { tag := js "h2", id := js "selectedRoleTitle", ancestorIds := [js "loginForm"],
    classList := [], innerText := js "Login", value := [], disabled := false }

/-- The email input of the sample page, holding `email`. -/
def sampleEmailInput (email : JsString) : Element :=
  { tag := js "input", id := js "email", ancestorIds := [js "loginForm"],
    classList := [], innerText := [], value := email, disabled := false }

/-- The password input of the sample page, holding `password`. -/
def samplePasswordInput (password : JsString) : Element :=
  { tag := js "input", id := js "password", ancestorIds := [js "loginForm"],
    classList := [], innerText := [], value := password, disabled := false }

/-- The elements of a login page: two role cards, the hidden form with its title, the two
inputs and the submit button. -/
def sampleDocument (email password : JsString) : List Element :=
  [ { tag := js "div", id := js "card-student", ancestorIds := [],
      classList := [js "role-card", js "border-white"], innerText := js "Student",
      value := [], disabled := false },
    { tag := js "div", id := js "card-staff", ancestorIds := [],
      classList := [js "role-card", js "border-white"], innerText := js "Staff",
      value := [], disabled := false },
    sampleForm,
    sampleTitle,
    sampleEmailInput email,
    samplePasswordInput password,
    { tag := js "button", id := [], ancestorIds := [js "loginForm"],
      classList := [], innerText := js "Sign In", value := [], disabled := false } ]

/-- The sample page as loaded, with both inputs filled in: no role selected, empty store. -/
def samplePage : Page :=
  { selectedRole := none,
    document := sampleDocument (js "jane@example.org") (js "secret"),
    localStorage := [] }

/-- The `session` object of the sample success body. -/
def sampleSession : JsVal := .obj [(js "access_token", .str (js "T"))]

/-- The body `{session: {access_token: "T"}, role: "staff", full_name: "Jane Doe"}`. -/
def sampleBody : JsVal :=
  .obj [(js "session", sampleSession), (js "role", .str (js "staff")),
    (js "full_name", .str (js "Jane Doe"))]

/-- A host that upper-cases the ASCII letters and leaves every other code unit as it is,
with one fixed text for the engine's TypeErrors, and whose storage accepts every write. -/
def sampleHost : Host :=
  { toUpperCase := fun s => s.map (fun c => if 97 ≤ c ∧ c ≤ 122 then c - 32 else c),
    typeErrorMessage := fun _ => js "TypeError",
    localStorageError := none,
    setItemError := fun _ _ _ => none }

/-- The number of code units the entries of a store take. -/
def storeSize : List (JsString × JsString) → Nat
  | [] => 0
  | (k, v) :: rest => k.length + v.length + storeSize rest

/-- The sample host with a storage quota of `quota` code units: a write that would make the
entries larger is refused with a QuotaExceededError. -/
def quotaHost (quota : Nat) : Host :=
  { toUpperCase := sampleHost.toUpperCase,
    typeErrorMessage := sampleHost.typeErrorMessage,
    localStorageError := none,
    setItemError := fun store k v =>
      if quota < storeSize (setItem k v store) then some (js "The quota has been exceeded.")
      else none }

/-! ## Observations on outcomes -/

/-- The messages of the `alert` calls, in order. -/
def alerts : List Event → List JsString
  | [] => []
  | .alert m :: rest => m :: alerts rest
  | _ :: rest => alerts rest

/-- The targets of the navigations, in order. -/
def navigations : List Event → List JsString
  | [] => []
  | .navigate h :: rest => h :: navigations rest
  | _ :: rest => navigations rest

/-- The messages of the `console.warn` calls, in order. -/
def warnings : List Event → List JsString
  | [] => []
  | .consoleWarn m :: rest => m :: warnings rest
  | _ :: rest => warnings rest

/-- The urls of the `fetch` calls, in order. -/
def fetches : List Event → List JsString
  | [] => []
  | .fetch url _ _ _ _ :: rest => url :: fetches rest
  | _ :: rest => fetches rest

/-- The store `after` is the store `before` with the three session entries written. -/
def WroteSession (before after : List (JsString × JsString)) : Prop :=
  ∃ t r n, after = setItem fullNameKey n (setItem roleKey r (setItem tokenKey t before))

/-- The storage of `host` is available and accepts, starting from `store`, the three writes
of the token `T`, the role `R` and the full name `N`. -/
def AcceptsSession (host : Host) (store : List (JsString × JsString)) (T R N : JsString) :
    Prop :=
  host.localStorageError = none ∧
    host.setItemError store tokenKey T = none ∧
    host.setItemError (setItem tokenKey T store) roleKey R = none ∧
    host.setItemError (setItem roleKey R (setItem tokenKey T store)) fullNameKey N = none

/-- The exchange `ex` ended with a success response, the statement of line 75 wrote the token
into `before`, and then the statement of line 79 or the one of line 80 threw; `after` holds
what had been written until then. -/
def HalfWritten (host : Host) (ex : Exchange) (before after : List (JsString × JsString)) :
    Prop :=
  ∃ status data store1, ex = .responded status data ∧ responseOk status = true ∧
    storeItem host tokenKey (tokenArg data) before = .ok store1 ∧
    ((after = store1 ∧
        ∃ m, storeItem host roleKey (getProp data (js "role")) store1 = .error m) ∨
      (∃ store2 m, storeItem host roleKey (getProp data (js "role")) store1 = .ok store2 ∧
        after = store2 ∧
        storeItem host fullNameKey (getProp data (js "full_name")) store2 = .error m))

/-- The text of the reconciliation notice of line 84. -/
def mismatchNotice (selected role : JsString) : JsString :=
  js "User selected " ++ selected ++ js " but account is " ++ role ++
    js ". Redirecting based on DB role."

/-- The document once the submit button, if there is one, is enabled again with its label
unchanged. -/
def buttonRestored (doc : List Element) : List Element :=
  match querySelectorLoginButton doc with
  | some b => modifyAt b (fun e => { e with disabled := false }) doc
  | none => doc

/-- The document while the exchange is in flight (lines 50-53). -/
def buttonBusy (doc : List Element) : List Element :=
  match querySelectorLoginButton doc with
  | some b => modifyAt b
      (fun e => { e with innerText := js "Verifying Credentials...", disabled := true }) doc
  | none => doc

/-- The reconciliation notices due for the selected role `sel` and the server's role `R`:
one if `sel` is a non-empty string other than `R`, none otherwise. -/
def notices (sel : Option JsString) (R : JsString) : List JsString :=
  match sel with
  | none => []
  | some s => if s ≠ [] ∧ s ≠ R then [mismatchNotice s R] else []

/-- The class list of an element after one run of lines 8-21: `br` tells whether it is a
role card, `ba` whether it is the active card, `bf` whether it is the form. -/
def stepClasses (br ba bf : Bool) (cl : List JsString) : List JsString :=
  let c1 := if br then addTokens [js "border-white"] (removeTokens activeClasses cl) else cl
  let c2 := if ba then removeTokens [js "border-white"] (addTokens activeClasses c1) else c1
  if bf then removeTokens [js "hidden"] c2 else c2

/-- Apply `F j` to the element at index `j`, the first index being `k`. -/
def imapFrom (k : Nat) (F : Nat → Element → Element) : List Element → List Element
  | [] => []
  | e :: es => F k e :: imapFrom (k + 1) F es

/-- What one run of `selectRole(role)` does to the element `e` at index `j` of a document
whose active card, form and title are at `activeCard`, `form` and `title`. -/
def selectRoleStep (host : Host) (role : JsString) (activeCard : Option Nat) (form : Nat)
    (title : Option Nat) (j : Nat) (e : Element) : Element :=
  { e with
    classList := stepClasses (decide (js "role-card" ∈ e.classList))
      (decide (activeCard = some j)) (decide (j = form)) e.classList,
    innerText := if title = some j then titleText host role else e.innerText }

/-- The `forEach` body of lines 8-11 as applied to an arbitrary element: only role cards
are reset. -/
def cardPass (e : Element) : Element :=
  if js "role-card" ∈ e.classList then resetCard e else e

/-- Lines 14-17 as applied to the element at index `j`. -/
def activePass (activeCard : Option Nat) (j : Nat) (e : Element) : Element :=
  if activeCard = some j then activateCard e else e

/-- Line 21 as applied to the element at index `j`. -/
def formPass (form j : Nat) (e : Element) : Element :=
  if j = form then { e with classList := removeTokens [js "hidden"] e.classList } else e

/-- Lines 25-27 as applied to the element at index `j`. -/
def titlePass (host : Host) (role : JsString) (title : Option Nat) (j : Nat) (e : Element) :
    Element :=
  if title = some j then { e with innerText := titleText host role } else e

/-! ## Lemmas on the store -/

theorem getItem_setItem_same (k v : JsString) (st : List (JsString × JsString)) :
    getItem k (setItem k v st) = some v := by
  induction st with
  | nil => simp [setItem, getItem]
  | cons kv rest ih =>
    obtain ⟨k', v'⟩ := kv
    by_cases h : k' = k
    · simp [setItem, getItem, h]
    · simp [setItem, getItem, h, ih]

theorem getItem_setItem_other (k k' v : JsString) (st : List (JsString × JsString))
    (hne : k ≠ k') : getItem k (setItem k' v st) = getItem k st := by
  induction st with
  | nil => simp [setItem, getItem, Ne.symm hne]
  | cons kv rest ih =>
    obtain ⟨k'', v''⟩ := kv
    by_cases h : k'' = k'
    · subst h
      simp [setItem, getItem, Ne.symm hne]
    · by_cases h2 : k'' = k
      · subst h2
        simp [setItem, getItem, h]
      · simp [setItem, getItem, h, h2, ih]

theorem tokenKey_ne_roleKey : tokenKey ≠ roleKey := by decide
theorem tokenKey_ne_fullNameKey : tokenKey ≠ fullNameKey := by decide
theorem roleKey_ne_fullNameKey : roleKey ≠ fullNameKey := by decide

/-! ## Lemmas on element references -/

theorem findIndex_none_iff (q : Element → Bool) (doc : List Element) :
    findIndex q doc = none ↔ doc.find? q = none := by
  induction doc with
  | nil => simp [findIndex]
  | cons e es ih =>
    by_cases h : q e = true
    · simp [findIndex, List.find?, h]
    · simp only [Bool.not_eq_true] at h
      simp [findIndex, List.find?, h, ih]

theorem modifyAt_modifyAt (i : Nat) (f g : Element → Element) (doc : List Element) :
    modifyAt i f (modifyAt i g doc) = modifyAt i (fun e => f (g e)) doc := by
  induction doc generalizing i with
  | nil => simp [modifyAt]
  | cons e es ih =>
    cases i with
    | zero => simp [modifyAt]
    | succ j => simp [modifyAt, ih]

/-- A write through a reference only depends on what it does to the referenced element. -/
theorem modifyAt_congr_found (q : Element → Bool) (f g : Element → Element)
    (doc : List Element) (i : Nat) (b : Element)
    (hi : findIndex q doc = some i) (hb : doc.find? q = some b) (hfg : f b = g b) :
    modifyAt i f doc = modifyAt i g doc := by
  induction doc generalizing i with
  | nil => simp [findIndex] at hi
  | cons e es ih =>
    by_cases h : q e = true
    · simp [findIndex, h] at hi
      simp [List.find?, h] at hb
      subst hi; subst hb
      simp [modifyAt, hfg]
    · simp only [Bool.not_eq_true] at h
      simp [List.find?, h] at hb
      simp only [findIndex, h, Bool.false_eq_true, if_false, Option.map_eq_some'] at hi
      obtain ⟨j, hj, rfl⟩ := hi
      simp [modifyAt, ih j hj hb]

/-- Looking the button up again after it was enabled finds the same button, enabled. -/
theorem find_modifyAt_found (q : Element → Bool) (f : Element → Element)
    (hq : ∀ el, q (f el) = q el) (doc : List Element) :
    (match findIndex q doc with
     | some i => modifyAt i f doc
     | none => doc).find? q = (doc.find? q).map f := by
  induction doc with
  | nil => simp [findIndex]
  | cons el els ih =>
    by_cases h : q el = true
    · have h2 : q (f el) = true := by rw [hq]; exact h
      simp only [findIndex, h, if_true, modifyAt, List.find?, h2, Option.map]
    · simp only [Bool.not_eq_true] at h
      simp only [findIndex, h, Bool.false_eq_true, if_false, List.find?]
      cases hi : findIndex q els with
      | none =>
        simp only [hi] at ih
        simp only [Option.map, List.find?, h]
        exact ih
      | some i =>
        simp only [hi] at ih
        simp only [Option.map, modifyAt, List.find?, h]
        exact ih

theorem loginButton_buttonRestored (doc : List Element) :
    loginButton (buttonRestored doc) =
      (loginButton doc).map (fun b => { b with disabled := false }) := by
  unfold loginButton buttonRestored querySelectorLoginButton
  exact find_modifyAt_found
    (fun e => decide (e.tag = js "button") && decide (js "loginForm" ∈ e.ancestorIds))
    (fun b => { b with disabled := false }) (fun _ => rfl) doc

/-! ## `handleLogin`: the path taken once both inputs are non-empty -/

theorem handleLogin_submitted (host : Host) (ex : Exchange) (p : Page) (e pw : Element)
    (hemail : getElement p.document (js "email") = some e)
    (hpw : getElement p.document (js "password") = some pw)
    (he : e.value ≠ []) (hp : pw.value ≠ []) :
    handleLogin host ex p =
      { page :=
          { selectedRole := p.selectedRole,
            document :=
              match (tryBlock host ex p.selectedRole p.localStorage).thrown with
              | none => buttonBusy p.document
              | some _ => buttonRestored p.document,
            localStorage := (tryBlock host ex p.selectedRole p.localStorage).store },
        events :=
          .fetch (js "/api/login") (js "POST") (js "application/json") e.value pw.value ::
            ((tryBlock host ex p.selectedRole p.localStorage).events ++
              match (tryBlock host ex p.selectedRole p.localStorage).thrown with
              | none => []
              | some m => [.consoleError (js "Login Error:") m, .alert m]),
        uncaught := none } := by
  have hcond : (!truthy (.str e.value) || !truthy (.str pw.value)) = false := by
    simp [truthy, he, hp]
  simp only [handleLogin, hemail, hpw, hcond, Bool.false_eq_true, if_false]
  cases hthrown : (tryBlock host ex p.selectedRole p.localStorage).thrown with
  | none => simp [buttonBusy]
  | some m =>
    simp only [buttonRestored, Outcome.mk.injEq, Page.mk.injEq, true_and, and_true]
    cases hbtn : querySelectorLoginButton p.document with
    | none => simp
    | some b =>
      simp only [modifyAt_modifyAt]
      cases hb : loginButton p.document with
      | none =>
        have := (findIndex_none_iff _ p.document).mpr hb
        simp only [querySelectorLoginButton] at hbtn
        simp [hbtn] at this
      | some btn =>
        exact modifyAt_congr_found _ _ _ p.document b btn hbtn hb rfl

theorem roleCheck_wellFormed (sel : Option JsString) (data : JsVal) (R : JsString)
    (hr : getProp data (js "role") = .ok (.str R)) :
    roleCheck sel data = .ok ((notices sel R).map Event.consoleWarn) := by
  cases sel with
  | none => simp [roleCheck, notices]
  | some s =>
    by_cases hs : s = []
    · simp [roleCheck, truthy, hs, notices]
    · by_cases hsr : s = R
      · simp [roleCheck, truthy, hs, hr, strictEqStr, hsr, notices]
      · simp [roleCheck, truthy, hs, hr, strictEqStr, hsr, toStr, mismatchNotice, notices]

theorem storeItem_accepted (host : Host) (key : JsString) (arg : Except TypeErrorKind JsVal)
    (store : List (JsString × JsString)) (v : JsString)
    (hls : host.localStorageError = none) (harg : arg.bind toStr = .ok v)
    (hw : host.setItemError store key v = none) :
    storeItem host key arg store = .ok (setItem key v store) := by
  simp only [storeItem, hls, harg, hw]

theorem storeItem_ok_inv (host : Host) (key : JsString) (arg : Except TypeErrorKind JsVal)
    (store store' : List (JsString × JsString))
    (h : storeItem host key arg store = .ok store') :
    ∃ v, arg.bind toStr = .ok v ∧ store' = setItem key v store := by
  unfold storeItem at h
  cases hls : host.localStorageError with
  | some m => simp [hls] at h
  | none =>
    cases harg : arg.bind toStr with
    | error k => simp [hls, harg] at h
    | ok v =>
      cases hw : host.setItemError store key v with
      | some m => simp [hls, harg, hw] at h
      | none =>
        simp only [hls, harg, hw, Except.ok.injEq] at h
        exact ⟨v, rfl, h.symm⟩

theorem tryBlock_wellFormed (host : Host) (sel : Option JsString)
    (store : List (JsString × JsString)) (status : Nat) (data session : JsVal)
    (T R N : JsString) (hok : responseOk status = true)
    (hs : getProp data (js "session") = .ok session)
    (ht : getProp session (js "access_token") = .ok (.str T))
    (hr : getProp data (js "role") = .ok (.str R))
    (hn : getProp data (js "full_name") = .ok (.str N))
    (hacc : AcceptsSession host store T R N) :
    tryBlock host (.responded status data) sel store =
      { store := setItem fullNameKey N (setItem roleKey R (setItem tokenKey T store)),
        events := (notices sel R).map Event.consoleWarn ++ [.navigate (js "/dashboard")],
        thrown := none } := by
  obtain ⟨hls, h1, h2, h3⟩ := hacc
  have e1 : storeItem host tokenKey (tokenArg data) store = .ok (setItem tokenKey T store) :=
    storeItem_accepted host _ _ _ T hls (by simp [tokenArg, hs, ht, Except.bind, toStr]) h1
  have e2 : storeItem host roleKey (getProp data (js "role")) (setItem tokenKey T store) =
      .ok (setItem roleKey R (setItem tokenKey T store)) :=
    storeItem_accepted host _ _ _ R hls (by simp [hr, Except.bind, toStr]) h2
  have e3 : storeItem host fullNameKey (getProp data (js "full_name"))
      (setItem roleKey R (setItem tokenKey T store)) =
      .ok (setItem fullNameKey N (setItem roleKey R (setItem tokenKey T store))) :=
    storeItem_accepted host _ _ _ N hls (by simp [hn, Except.bind, toStr]) h3
  simp [tryBlock, hok, e1, e2, e3, roleCheck_wellFormed sel data R hr]

theorem alerts_append (xs ys : List Event) : alerts (xs ++ ys) = alerts xs ++ alerts ys := by
  induction xs with
  | nil => rfl
  | cons x xs ih => cases x <;> simp [alerts, ih]

theorem navigations_append (xs ys : List Event) :
    navigations (xs ++ ys) = navigations xs ++ navigations ys := by
  induction xs with
  | nil => rfl
  | cons x xs ih => cases x <;> simp [navigations, ih]

theorem warnings_append (xs ys : List Event) :
    warnings (xs ++ ys) = warnings xs ++ warnings ys := by
  induction xs with
  | nil => rfl
  | cons x xs ih => cases x <;> simp [warnings, ih]

theorem alerts_consoleWarn (ms : List JsString) : alerts (ms.map Event.consoleWarn) = [] := by
  induction ms with
  | nil => rfl
  | cons m ms ih => simp [alerts, ih]

theorem navigations_consoleWarn (ms : List JsString) :
    navigations (ms.map Event.consoleWarn) = [] := by
  induction ms with
  | nil => rfl
  | cons m ms ih => simp [navigations, ih]

theorem warnings_consoleWarn (ms : List JsString) :
    warnings (ms.map Event.consoleWarn) = ms := by
  induction ms with
  | nil => rfl
  | cons m ms ih => simp [warnings, ih]

/-- C1 (refuted as stated): on the sample page with an empty store and the sample body, whose
three fields are strings, a storage whose quota admits the token entry but not the role entry
makes `handleLogin` write the token only, show the storage's error and not navigate. -/
theorem quota_stops_the_session :
    (handleLogin (quotaHost 20) (.responded 200 sampleBody) samplePage).page.localStorage =
        [(js "sb-access-token", js "T")] ∧
      getItem (js "userRole")
        (handleLogin (quotaHost 20) (.responded 200 sampleBody) samplePage).page.localStorage =
        none ∧
      getItem (js "userFullName")
        (handleLogin (quotaHost 20) (.responded 200 sampleBody) samplePage).page.localStorage =
        none ∧
      navigations (handleLogin (quotaHost 20) (.responded 200 sampleBody) samplePage).events =
        [] ∧
      alerts (handleLogin (quotaHost 20) (.responded 200 sampleBody) samplePage).events =
        [js "The quota has been exceeded."] := by
  decide

/-- C1 (amended): when both inputs are non-empty, the backend answers with a success status
and a body whose `session.access_token`, `role` and `full_name` are the strings `T`, `R`, `N`,
and the storage is available and accepts the three writes, `handleLogin` leaves the store as
the old store with `sb-access-token` set to `T`, `userRole` to `R` and `userFullName` to `N`,
reading back exactly these values, and navigates to `/dashboard` exactly once. -/
theorem handleLogin_persists_session (host : Host) (p : Page) (e pw : Element)
    (status : Nat) (data session : JsVal) (T R N : JsString)
    (hemail : getElement p.document (js "email") = some e)
    (hpw : getElement p.document (js "password") = some pw)
    (he : e.value ≠ []) (hp : pw.value ≠ [])
    (hok : responseOk status = true)
    (hs : getProp data (js "session") = .ok session)
    (ht : getProp session (js "access_token") = .ok (.str T))
    (hr : getProp data (js "role") = .ok (.str R))
    (hn : getProp data (js "full_name") = .ok (.str N))
    (hacc : AcceptsSession host p.localStorage T R N) :
    (handleLogin host (.responded status data) p).page.localStorage =
        setItem (js "userFullName") N
          (setItem (js "userRole") R (setItem (js "sb-access-token") T p.localStorage)) ∧
      getItem (js "sb-access-token")
        (handleLogin host (.responded status data) p).page.localStorage = some T ∧
      getItem (js "userRole")
        (handleLogin host (.responded status data) p).page.localStorage = some R ∧
      getItem (js "userFullName")
        (handleLogin host (.responded status data) p).page.localStorage = some N ∧
      navigations (handleLogin host (.responded status data) p).events = [js "/dashboard"] ∧
      (handleLogin host (.responded status data) p).uncaught = none := by
  rw [handleLogin_submitted host _ p e pw hemail hpw he hp,
    tryBlock_wellFormed host p.selectedRole p.localStorage status data session T R N
      hok hs ht hr hn hacc]
  refine ⟨rfl, ?_, ?_, ?_, ?_, rfl⟩
  · show getItem tokenKey (setItem fullNameKey N (setItem roleKey R (setItem tokenKey T _))) = _
    rw [getItem_setItem_other _ _ _ _ tokenKey_ne_fullNameKey,
      getItem_setItem_other _ _ _ _ tokenKey_ne_roleKey, getItem_setItem_same]
  · show getItem roleKey (setItem fullNameKey N (setItem roleKey R (setItem tokenKey T _))) = _
    rw [getItem_setItem_other _ _ _ _ roleKey_ne_fullNameKey, getItem_setItem_same]
  · show getItem fullNameKey (setItem fullNameKey N _) = _
    rw [getItem_setItem_same]
  · simp [navigations, navigations_append, navigations_consoleWarn]

theorem getProp_ok_of_ok (data v : JsVal) (k k' : JsString) (h : getProp data k = .ok v) :
    ∃ w, getProp data k' = .ok w := by
  cases data with
  | undefined => simp [getProp] at h
  | null => simp [getProp] at h
  | obj props =>
    cases hl : lookupProp k' props with
    | none => exact ⟨.undefined, by simp [getProp, hl]⟩
    | some w => exact ⟨w, by simp [getProp, hl]⟩
  | bool b => exact ⟨.undefined, rfl⟩
  | num n => exact ⟨.undefined, rfl⟩
  | str t => exact ⟨.undefined, rfl⟩
  | arr items => exact ⟨.undefined, rfl⟩

theorem roleCheck_ok_of_toStr_ok (sel : Option JsString) (data r : JsVal) (rs : JsString)
    (hr : getProp data (js "role") = .ok r) (hrs : toStr r = .ok rs) :
    ∃ evs : List JsString, roleCheck sel data = .ok (evs.map Event.consoleWarn) := by
  cases sel with
  | none => exact ⟨[], by simp [roleCheck]⟩
  | some s =>
    by_cases hs : truthy (.str s) = true
    · by_cases heq : strictEqStr s r = true
      · exact ⟨[], by simp [roleCheck, hs, hr, heq]⟩
      · refine ⟨[js "User selected " ++ s ++ js " but account is " ++ rs ++
          js ". Redirecting based on DB role."], ?_⟩
        simp [roleCheck, hs, hr, heq, hrs]
    · exact ⟨[], by simp [roleCheck, hs]⟩

theorem roleCheck_ok_of_bind_ok (sel : Option JsString) (data : JsVal) (rs : JsString)
    (h : (getProp data (js "role")).bind toStr = .ok rs) :
    ∃ evs : List JsString, roleCheck sel data = .ok (evs.map Event.consoleWarn) := by
  cases hr : getProp data (js "role") with
  | error k => simp [hr, Except.bind] at h
  | ok r =>
    have hrs : toStr r = .ok rs := by simpa [hr, Except.bind] using h
    exact roleCheck_ok_of_toStr_ok sel data r rs hr hrs

/-- The ways the `try` block can end: completed with all three entries written and no
alert-bearing event, or thrown with the store untouched, or thrown at the second or third
write with the earlier entries in the store. -/
theorem tryBlock_outcomes (host : Host) (ex : Exchange) (sel : Option JsString)
    (store : List (JsString × JsString)) :
    ((tryBlock host ex sel store).thrown = none ∧
        WroteSession store (tryBlock host ex sel store).store ∧
        alerts (tryBlock host ex sel store).events = []) ∨
      ((tryBlock host ex sel store).thrown ≠ none ∧
        ((tryBlock host ex sel store).store = store ∨
          HalfWritten host ex store (tryBlock host ex sel store).store)) := by
  cases ex with
  | fetchRejected m => right; simp [tryBlock]
  | bodyNotJson st m => right; simp [tryBlock]
  | responded status data =>
    by_cases hok : responseOk status = true
    · cases h1 : storeItem host tokenKey (tokenArg data) store with
      | error m => right; simp [tryBlock, hok, h1]
      | ok store1 =>
        cases h2 : storeItem host roleKey (getProp data (js "role")) store1 with
        | error m =>
          right
          refine ⟨by simp [tryBlock, hok, h1, h2], Or.inr ?_⟩
          refine ⟨status, data, store1, rfl, hok, h1, Or.inl ⟨?_, m, h2⟩⟩
          simp [tryBlock, hok, h1, h2]
        | ok store2 =>
          cases h3 : storeItem host fullNameKey (getProp data (js "full_name")) store2 with
          | error m =>
            right
            refine ⟨by simp [tryBlock, hok, h1, h2, h3], Or.inr ?_⟩
            refine ⟨status, data, store1, rfl, hok, h1, Or.inr ⟨store2, m, h2, ?_, h3⟩⟩
            simp [tryBlock, hok, h1, h2, h3]
          | ok store3 =>
            obtain ⟨t, _, ht⟩ := storeItem_ok_inv host _ _ _ _ h1
            obtain ⟨r, hrconv, hr⟩ := storeItem_ok_inv host _ _ _ _ h2
            obtain ⟨n, _, hn⟩ := storeItem_ok_inv host _ _ _ _ h3
            obtain ⟨evs, hevs⟩ := roleCheck_ok_of_bind_ok sel data r hrconv
            left
            simp only [tryBlock, hok, Bool.not_true, Bool.false_eq_true, if_false, h1, h2, h3,
              hevs, true_and]
            refine ⟨⟨t, r, n, ?_⟩, ?_⟩
            · rw [hn, hr, ht]
            · simp [alerts_append, alerts_consoleWarn, alerts]
    · simp only [Bool.not_eq_true] at hok
      right
      simp only [tryBlock, hok, Bool.not_false, if_true]
      cases he : getProp data (js "error") with
      | error k => simp
      | ok ev =>
        by_cases htr : truthy ev = true
        · cases hm : toStr ev with
          | error k => simp [htr, hm]
          | ok m => simp [htr, hm]
        · simp [htr]

/-- Either `handleLogin` stops before the exchange and leaves the page as it was, or both
inputs exist and are non-empty. -/
theorem handleLogin_early_or_submitted (host : Host) (ex : Exchange) (p : Page) :
    (handleLogin host ex p).page = p ∨
      ∃ e pw, getElement p.document (js "email") = some e ∧
        getElement p.document (js "password") = some pw ∧ e.value ≠ [] ∧ pw.value ≠ [] := by
  cases hemail : getElement p.document (js "email") with
  | none => left; simp [handleLogin, hemail]
  | some e =>
    cases hpw : getElement p.document (js "password") with
    | none => left; simp [handleLogin, hemail, hpw]
    | some pw =>
      by_cases he : e.value = []
      · left; simp [handleLogin, hemail, hpw, truthy, he]
      · by_cases hp : pw.value = []
        · left; simp [handleLogin, hemail, hpw, truthy, hp]
        · right; exact ⟨e, pw, rfl, rfl, he, hp⟩

/-- C2 (amended): for every page, host and outcome of the exchange, the store after
`handleLogin` is the old store with all three session entries written, or the old store
itself, or, when on a success response the token was written and the write of the role or of
the full name then threw, the old store with the entries written before the throw; and
whenever an alert is shown the store is the old store or is in that last case. -/
theorem handleLogin_store_outcomes (host : Host) (ex : Exchange) (p : Page) :
    (WroteSession p.localStorage (handleLogin host ex p).page.localStorage ∨
        (handleLogin host ex p).page.localStorage = p.localStorage ∨
        HalfWritten host ex p.localStorage (handleLogin host ex p).page.localStorage) ∧
      (alerts (handleLogin host ex p).events ≠ [] →
        (handleLogin host ex p).page.localStorage = p.localStorage ∨
          HalfWritten host ex p.localStorage (handleLogin host ex p).page.localStorage) := by
  rcases handleLogin_early_or_submitted host ex p with hearly | ⟨e, pw, hemail, hpw, he, hp⟩
  · rw [hearly]
    exact ⟨Or.inr (Or.inl rfl), fun _ => Or.inl rfl⟩
  · rw [handleLogin_submitted host ex p e pw hemail hpw he hp]
    rcases tryBlock_outcomes host ex p.selectedRole p.localStorage with
      ⟨hnone, hwrote, halerts⟩ | ⟨_, hstore⟩
    · refine ⟨Or.inl hwrote, ?_⟩
      intro hshown
      exfalso
      apply hshown
      simp [alerts, alerts_append, halerts, hnone]
    · exact ⟨Or.inr hstore, fun _ => hstore⟩

/-- C3: when both inputs are non-empty and the backend answers with a non-success status and
a body whose `error` is the non-empty string `msg`, `handleLogin` leaves the store as it was,
alerts exactly `msg`, does not navigate, and leaves the document as it was except that the
submit button is enabled, its label being the one it had before. -/
theorem handleLogin_rejected_credentials (host : Host) (p : Page) (e pw : Element)
    (status : Nat) (data : JsVal) (msg : JsString)
    (hemail : getElement p.document (js "email") = some e)
    (hpw : getElement p.document (js "password") = some pw)
    (he : e.value ≠ []) (hp : pw.value ≠ [])
    (hstatus : responseOk status = false)
    (herr : getProp data (js "error") = .ok (.str msg)) (hmsg : msg ≠ []) :
    (handleLogin host (.responded status data) p).page.localStorage = p.localStorage ∧
      alerts (handleLogin host (.responded status data) p).events = [msg] ∧
      navigations (handleLogin host (.responded status data) p).events = [] ∧
      (handleLogin host (.responded status data) p).page.document =
        (match querySelectorLoginButton p.document with
         | some b => modifyAt b (fun el => { el with disabled := false }) p.document
         | none => p.document) ∧
      loginButton (handleLogin host (.responded status data) p).page.document =
        (loginButton p.document).map (fun b => { b with disabled := false }) := by
  have htry : tryBlock host (.responded status data) p.selectedRole p.localStorage =
      { store := p.localStorage, events := [], thrown := some msg } := by
    simp [tryBlock, hstatus, herr, truthy, hmsg, toStr]
  rw [handleLogin_submitted host _ p e pw hemail hpw he hp, htry]
  refine ⟨rfl, ?_, ?_, rfl, ?_⟩
  · simp [alerts]
  · simp [navigations]
  · exact loginButton_buttonRestored p.document

/-- C4: when the email or the password is the empty string, `handleLogin` alerts the
validation message and does nothing else: no `fetch`, no navigation, and the page (store,
document with its submit button, selected role) is exactly what it was. -/
theorem handleLogin_validation (host : Host) (ex : Exchange) (p : Page) (e pw : Element)
    (hemail : getElement p.document (js "email") = some e)
    (hpw : getElement p.document (js "password") = some pw)
    (hempty : e.value = [] ∨ pw.value = []) :
    handleLogin host ex p =
        { page := p, events := [.alert (js "Please enter both email and password.")],
          uncaught := none } ∧
      fetches (handleLogin host ex p).events = [] ∧
      navigations (handleLogin host ex p).events = [] ∧
      alerts (handleLogin host ex p).events = [js "Please enter both email and password."] := by
  have hrun : handleLogin host ex p =
      { page := p, events := [.alert (js "Please enter both email and password.")],
        uncaught := none } := by
    rcases hempty with h | h
    · simp [handleLogin, hemail, hpw, truthy, h, validationMessage]
    · simp [handleLogin, hemail, hpw, truthy, h, validationMessage]
  rw [hrun]
  exact ⟨rfl, rfl, rfl, rfl⟩

/-- C5 (refuted as stated): on the sample page, a success response whose body has
`session.access_token` and `full_name` but no `role` writes all three entries, `userRole`
being the text `undefined`, shows no alert and navigates to `/dashboard`. -/
theorem missing_role_is_persisted :
    (handleLogin sampleHost
        (.responded 200 (.obj [(js "session", .obj [(js "access_token", .str (js "T"))]),
          (js "full_name", .str (js "Jane Doe"))])) samplePage).page.localStorage =
        [(js "sb-access-token", js "T"), (js "userRole", js "undefined"),
          (js "userFullName", js "Jane Doe")] ∧
      samplePage.localStorage = [] ∧
      alerts (handleLogin sampleHost
        (.responded 200 (.obj [(js "session", .obj [(js "access_token", .str (js "T"))]),
          (js "full_name", .str (js "Jane Doe"))])) samplePage).events = [] ∧
      navigations (handleLogin sampleHost
        (.responded 200 (.obj [(js "session", .obj [(js "access_token", .str (js "T"))]),
          (js "full_name", .str (js "Jane Doe"))])) samplePage).events = [js "/dashboard"] := by
  decide

/-- C5 (amended): when both inputs are non-empty, the backend answers with a success status
and an object body that has no `role` property while `session.access_token` and `full_name`
are the strings `T` and `N`, and the storage is available and accepts the three writes,
`handleLogin` writes `sb-access-token` = `T`, `userRole` = the text `undefined` and
`userFullName` = `N`, shows no alert and navigates to `/dashboard` once. -/
theorem handleLogin_missing_role (host : Host) (p : Page) (e pw : Element)
    (status : Nat) (props : List (JsString × JsVal)) (session : JsVal) (T N : JsString)
    (hemail : getElement p.document (js "email") = some e)
    (hpw : getElement p.document (js "password") = some pw)
    (he : e.value ≠ []) (hp : pw.value ≠ [])
    (hok : responseOk status = true)
    (hs : lookupProp (js "session") props = some session)
    (ht : getProp session (js "access_token") = .ok (.str T))
    (hr : lookupProp (js "role") props = none)
    (hn : lookupProp (js "full_name") props = some (.str N))
    (hacc : AcceptsSession host p.localStorage T (js "undefined") N) :
    (handleLogin host (.responded status (.obj props)) p).page.localStorage =
        setItem (js "userFullName") N
          (setItem (js "userRole") (js "undefined")
            (setItem (js "sb-access-token") T p.localStorage)) ∧
      alerts (handleLogin host (.responded status (.obj props)) p).events = [] ∧
      navigations (handleLogin host (.responded status (.obj props)) p).events =
        [js "/dashboard"] := by
  have hcheck : ∃ evs : List JsString,
      roleCheck p.selectedRole (.obj props) = .ok (evs.map Event.consoleWarn) :=
    roleCheck_ok_of_toStr_ok p.selectedRole (.obj props) .undefined (js "undefined")
      (by simp [getProp, hr]) (by simp [toStr])
  obtain ⟨evs, hevs⟩ := hcheck
  obtain ⟨hls, h1, h2, h3⟩ := hacc
  have hs' : getProp (.obj props) (js "session") = .ok session := by simp [getProp, hs]
  have hr' : getProp (.obj props) (js "role") = .ok .undefined := by simp [getProp, hr]
  have hn' : getProp (.obj props) (js "full_name") = .ok (.str N) := by simp [getProp, hn]
  have e1 : storeItem host tokenKey (tokenArg (.obj props)) p.localStorage =
      .ok (setItem tokenKey T p.localStorage) :=
    storeItem_accepted host _ _ _ T hls (by simp [tokenArg, hs', ht, Except.bind, toStr]) h1
  have e2 : storeItem host roleKey (getProp (.obj props) (js "role"))
      (setItem tokenKey T p.localStorage) =
      .ok (setItem roleKey (js "undefined") (setItem tokenKey T p.localStorage)) :=
    storeItem_accepted host _ _ _ (js "undefined") hls (by simp [hr', Except.bind, toStr]) h2
  have e3 : storeItem host fullNameKey (getProp (.obj props) (js "full_name"))
      (setItem roleKey (js "undefined") (setItem tokenKey T p.localStorage)) =
      .ok (setItem fullNameKey N (setItem roleKey (js "undefined")
        (setItem tokenKey T p.localStorage))) :=
    storeItem_accepted host _ _ _ N hls (by simp [hn', Except.bind, toStr]) h3
  have htry : tryBlock host (.responded status (.obj props)) p.selectedRole p.localStorage =
      { store := setItem fullNameKey N (setItem roleKey (js "undefined")
          (setItem tokenKey T p.localStorage)),
        events := evs.map Event.consoleWarn ++ [.navigate (js "/dashboard")],
        thrown := none } := by
    simp [tryBlock, hok, e1, e2, e3, hevs]
  rw [handleLogin_submitted host _ p e pw hemail hpw he hp, htry]
  refine ⟨rfl, ?_, ?_⟩
  · simp [alerts, alerts_append, alerts_consoleWarn]
  · simp [navigations, navigations_append, navigations_consoleWarn]

/-- C6 (refuted as stated): on the sample page, when `fetch` rejects with an error whose
message is `Failed to fetch`, the alert shows `Failed to fetch`, whereas a 401 response with
the body `{}` makes it show the fixed generic message. -/
theorem transport_message_is_shown :
    alerts (handleLogin sampleHost (.fetchRejected (js "Failed to fetch")) samplePage).events =
        [js "Failed to fetch"] ∧
      alerts (handleLogin sampleHost (.responded 401 (.obj [])) samplePage).events =
        [js "Login failed. Please check your credentials."] ∧
      js "Failed to fetch" ≠ js "Login failed. Please check your credentials." := by
  decide

/-- C6 (amended): when both inputs are non-empty and the exchange fails at transport level
(`fetch` rejects, or the body is not JSON) with an error whose message is `m`, `handleLogin`
alerts exactly `m`; the fixed generic message is what it alerts for a non-success response
whose body has a falsy `error`. -/
theorem handleLogin_transport_failure (host : Host) (p : Page) (e pw : Element)
    (m : JsString) (status : Nat)
    (hemail : getElement p.document (js "email") = some e)
    (hpw : getElement p.document (js "password") = some pw)
    (he : e.value ≠ []) (hp : pw.value ≠ []) :
    alerts (handleLogin host (.fetchRejected m) p).events = [m] ∧
      alerts (handleLogin host (.bodyNotJson status m) p).events = [m] ∧
      (∀ data err, responseOk status = false → getProp data (js "error") = .ok err →
        truthy err = false →
        alerts (handleLogin host (.responded status data) p).events =
          [js "Login failed. Please check your credentials."]) := by
  refine ⟨?_, ?_, ?_⟩
  · rw [handleLogin_submitted host _ p e pw hemail hpw he hp]
    simp [tryBlock, alerts]
  · rw [handleLogin_submitted host _ p e pw hemail hpw he hp]
    simp [tryBlock, alerts]
  · intro data err hstatus herr hfalsy
    rw [handleLogin_submitted host _ p e pw hemail hpw he hp]
    simp [tryBlock, hstatus, herr, hfalsy, alerts, genericMessage]

/-- C2 (refuted as stated): on the sample page with an empty store, a success response
whose body is `{session: {access_token: "T"}, role: {toString: null}, full_name: "N"}` makes
`handleLogin` write `sb-access-token`, fail to convert the role to a string, and show an
alert: the store then holds exactly one entry, neither all three nor what it held before. -/
theorem half_written_session :
    (handleLogin sampleHost
        (.responded 200 (.obj [(js "session", .obj [(js "access_token", .str (js "T"))]),
          (js "role", .obj [(js "toString", .null)]),
          (js "full_name", .str (js "N"))])) samplePage).page.localStorage =
        [(js "sb-access-token", js "T")] ∧
      ¬ WroteSession samplePage.localStorage
        (handleLogin sampleHost
          (.responded 200 (.obj [(js "session", .obj [(js "access_token", .str (js "T"))]),
            (js "role", .obj [(js "toString", .null)]),
            (js "full_name", .str (js "N"))])) samplePage).page.localStorage ∧
      (handleLogin sampleHost
        (.responded 200 (.obj [(js "session", .obj [(js "access_token", .str (js "T"))]),
          (js "role", .obj [(js "toString", .null)]),
          (js "full_name", .str (js "N"))])) samplePage).page.localStorage ≠
        samplePage.localStorage ∧
      alerts (handleLogin sampleHost
        (.responded 200 (.obj [(js "session", .obj [(js "access_token", .str (js "T"))]),
          (js "role", .obj [(js "toString", .null)]),
          (js "full_name", .str (js "N"))])) samplePage).events = [js "TypeError"] := by
  have hstore : (handleLogin sampleHost
        (.responded 200 (.obj [(js "session", .obj [(js "access_token", .str (js "T"))]),
          (js "role", .obj [(js "toString", .null)]),
          (js "full_name", .str (js "N"))])) samplePage).page.localStorage =
        [(js "sb-access-token", js "T")] := by decide
  refine ⟨hstore, ?_, by decide, by decide⟩
  rw [hstore]
  rintro ⟨t, r, n, h⟩
  have hlen := congrArg List.length h
  have h3 : (setItem fullNameKey n (setItem roleKey r (setItem tokenKey t
      samplePage.localStorage))).length = 3 := by
    simp [samplePage, setItem, tokenKey_ne_roleKey, tokenKey_ne_fullNameKey,
      roleKey_ne_fullNameKey]
  rw [h3] at hlen
  simp at hlen

/-- With a body whose `role` is a string, the selected role only decides which warnings the
`try` block records: store, thrown error, alerts and navigations do not depend on it. -/
theorem tryBlock_selection (host : Host) (sel : Option JsString)
    (store : List (JsString × JsString)) (status : Nat) (data : JsVal) (R : JsString)
    (hr : getProp data (js "role") = .ok (.str R)) :
    (tryBlock host (.responded status data) sel store).store =
        (tryBlock host (.responded status data) none store).store ∧
      (tryBlock host (.responded status data) sel store).thrown =
        (tryBlock host (.responded status data) none store).thrown ∧
      alerts (tryBlock host (.responded status data) sel store).events =
        alerts (tryBlock host (.responded status data) none store).events ∧
      navigations (tryBlock host (.responded status data) sel store).events =
        navigations (tryBlock host (.responded status data) none store).events ∧
      ((tryBlock host (.responded status data) sel store).events = [] ∨
        (tryBlock host (.responded status data) sel store).events =
          (notices sel R).map Event.consoleWarn ++ [.navigate (js "/dashboard")]) := by
  by_cases hok : responseOk status = true
  · cases h1 : storeItem host tokenKey (tokenArg data) store with
    | error m => simp [tryBlock, hok, h1]
    | ok store1 =>
      cases h2 : storeItem host roleKey (getProp data (js "role")) store1 with
      | error m => simp [tryBlock, hok, h1, h2]
      | ok store2 =>
        cases h3 : storeItem host fullNameKey (getProp data (js "full_name")) store2 with
        | error m => simp [tryBlock, hok, h1, h2, h3]
        | ok store3 =>
          simp [tryBlock, hok, h1, h2, h3, roleCheck_wellFormed _ data R hr, alerts_append,
            alerts_consoleWarn, navigations_append, navigations_consoleWarn, alerts,
            navigations]
  · simp only [Bool.not_eq_true] at hok
    simp only [tryBlock, hok, Bool.not_false, if_true, true_and]
    cases he : getProp data (js "error") with
    | error k => simp
    | ok ev =>
      by_cases htr : truthy ev = true
      · cases hm : toStr ev with
        | error k => simp [htr, hm]
        | ok m => simp [htr, hm]
      · simp [htr]

/-- C7 (refuted as stated): on the sample page with `student` selected and the sample body,
whose role is `staff`, a storage whose quota admits the token entry but not the role entry
leaves `userRole` unset, and `handleLogin` shows the storage's error and does not navigate. -/
theorem quota_stops_the_role :
    getItem (js "userRole") (handleLogin (quotaHost 20) (.responded 200 sampleBody)
        { selectedRole := some (js "student"), document := samplePage.document,
          localStorage := [] }).page.localStorage = none ∧
      navigations (handleLogin (quotaHost 20) (.responded 200 sampleBody)
        { selectedRole := some (js "student"), document := samplePage.document,
          localStorage := [] }).events = [] ∧
      alerts (handleLogin (quotaHost 20) (.responded 200 sampleBody)
        { selectedRole := some (js "student"), document := samplePage.document,
          localStorage := [] }).events = [js "The quota has been exceeded."] := by
  decide

/-- C7 (amended): when both inputs are non-empty, a role `s` is selected and the backend
answers with a well-formed success body whose role `R` differs from `s`, then, if the storage
is available and accepts the three writes, `handleLogin` stores `userRole` = `R` and not `s`,
navigates to `/dashboard` and shows no alert; and in every case store, navigations and alerts
are the ones it produces from the same page with no role selected. -/
theorem handleLogin_server_role_wins (host : Host) (doc : List Element)
    (store : List (JsString × JsString)) (e pw : Element)
    (status : Nat) (data session : JsVal) (s T R N : JsString)
    (hemail : getElement doc (js "email") = some e)
    (hpw : getElement doc (js "password") = some pw)
    (he : e.value ≠ []) (hp : pw.value ≠ [])
    (hdiff : s ≠ R)
    (hok : responseOk status = true)
    (hs : getProp data (js "session") = .ok session)
    (ht : getProp session (js "access_token") = .ok (.str T))
    (hr : getProp data (js "role") = .ok (.str R))
    (hn : getProp data (js "full_name") = .ok (.str N)) :
    (AcceptsSession host store T R N →
        getItem (js "userRole") (handleLogin host (.responded status data)
          { selectedRole := some s, document := doc, localStorage := store }).page.localStorage =
          some R ∧
        getItem (js "userRole") (handleLogin host (.responded status data)
          { selectedRole := some s, document := doc, localStorage := store }).page.localStorage ≠
          some s ∧
        navigations (handleLogin host (.responded status data)
          { selectedRole := some s, document := doc, localStorage := store }).events =
          [js "/dashboard"] ∧
        alerts (handleLogin host (.responded status data)
          { selectedRole := some s, document := doc, localStorage := store }).events = []) ∧
      (handleLogin host (.responded status data)
        { selectedRole := some s, document := doc, localStorage := store }).page.localStorage =
        (handleLogin host (.responded status data)
          { selectedRole := none, document := doc, localStorage := store }).page.localStorage ∧
      navigations (handleLogin host (.responded status data)
        { selectedRole := some s, document := doc, localStorage := store }).events =
        navigations (handleLogin host (.responded status data)
          { selectedRole := none, document := doc, localStorage := store }).events ∧
      alerts (handleLogin host (.responded status data)
        { selectedRole := some s, document := doc, localStorage := store }).events =
        alerts (handleLogin host (.responded status data)
          { selectedRole := none, document := doc, localStorage := store }).events := by
  refine ⟨?_, ?_⟩
  · intro hacc
    rw [handleLogin_submitted host _ ⟨some s, doc, store⟩ e pw hemail hpw he hp,
      tryBlock_wellFormed host (some s) store status data session T R N hok hs ht hr hn hacc]
    have hrole : getItem roleKey
        (setItem fullNameKey N (setItem roleKey R (setItem tokenKey T store))) = some R := by
      rw [getItem_setItem_other _ _ _ _ roleKey_ne_fullNameKey, getItem_setItem_same]
    refine ⟨hrole, ?_, ?_, ?_⟩
    · show getItem roleKey (setItem fullNameKey N (setItem roleKey R (setItem tokenKey T _))) ≠ _
      rw [hrole]
      intro h
      exact hdiff (Option.some.inj h).symm
    · simp [navigations, navigations_append, navigations_consoleWarn]
    · simp [alerts, alerts_append, alerts_consoleWarn]
  · obtain ⟨hstore, hthrown, halerts, hnavs, _⟩ :=
      tryBlock_selection host (some s) store status data R hr
    rw [handleLogin_submitted host _ ⟨some s, doc, store⟩ e pw hemail hpw he hp,
      handleLogin_submitted host _ ⟨none, doc, store⟩ e pw hemail hpw he hp]
    refine ⟨hstore, ?_, ?_⟩
    · simp only [navigations, navigations_append, hnavs, hthrown]
    · simp only [alerts, alerts_append, halerts, hthrown]

/-- C10 (refuted as stated): `selectRole("")` on the sample page leaves the selected role
equal to the empty string, which is not `null` and differs from `staff`, and a following
successful login with server role `staff` records no `console.warn`; nor is one recorded when
`student` is selected and the storage refuses the role entry, the exchange having
succeeded with server role `staff`. -/
theorem role_mismatch_not_reconciled :
    (selectRole sampleHost [] samplePage).page.selectedRole = some [] ∧
      ([] : JsString) ≠ js "staff" ∧
      warnings (handleLogin sampleHost (.responded 200 sampleBody)
        (selectRole sampleHost [] samplePage).page).events = [] ∧
      navigations (handleLogin sampleHost (.responded 200 sampleBody)
        (selectRole sampleHost [] samplePage).page).events = [js "/dashboard"] ∧
      (selectRole (quotaHost 20) (js "student") samplePage).page.selectedRole =
        some (js "student") ∧
      js "student" ≠ js "staff" ∧
      warnings (handleLogin (quotaHost 20) (.responded 200 sampleBody)
        (selectRole (quotaHost 20) (js "student") samplePage).page).events = [] := by
  decide

/-- C10 (amended): when both inputs are non-empty and the backend answers with a well-formed
success body whose role is `R`, then, if the storage is available and accepts the three
writes, `handleLogin` records exactly one `console.warn`, the reconciliation notice, if the
selected role is a non-empty string other than `R`; it records none if no role is selected,
the selected role is the empty string, or it equals `R`; and the selected role after
`selectRole(role)` is `role`, whatever string `role` is. -/
theorem handleLogin_reconciliation_notice (host : Host) (p : Page) (e pw : Element)
    (status : Nat) (data session : JsVal) (T R N : JsString)
    (hemail : getElement p.document (js "email") = some e)
    (hpw : getElement p.document (js "password") = some pw)
    (he : e.value ≠ []) (hp : pw.value ≠ [])
    (hok : responseOk status = true)
    (hs : getProp data (js "session") = .ok session)
    (ht : getProp session (js "access_token") = .ok (.str T))
    (hr : getProp data (js "role") = .ok (.str R))
    (hn : getProp data (js "full_name") = .ok (.str N)) :
    (AcceptsSession host p.localStorage T R N →
        warnings (handleLogin host (.responded status data) p).events =
          (match p.selectedRole with
           | none => []
           | some s =>
             if s ≠ [] ∧ s ≠ R then
               [js "User selected " ++ s ++ js " but account is " ++ R ++
                 js ". Redirecting based on DB role."]
             else [])) ∧
      ((p.selectedRole = none ∨ p.selectedRole = some [] ∨ p.selectedRole = some R) →
        warnings (handleLogin host (.responded status data) p).events = []) ∧
      ∀ (role : JsString) (q : Page), (selectRole host role q).page.selectedRole = some role := by
  refine ⟨?_, ?_, ?_⟩
  · intro hacc
    rw [handleLogin_submitted host _ p e pw hemail hpw he hp,
      tryBlock_wellFormed host p.selectedRole p.localStorage status data session T R N
        hok hs ht hr hn hacc]
    simp only [warnings, warnings_append, warnings_consoleWarn, List.append_nil]
    rfl
  · intro hsel
    have hnone : notices p.selectedRole R = [] := by
      rcases hsel with h | h | h <;> simp [notices, h]
    obtain ⟨_, _, _, _, hev⟩ :=
      tryBlock_selection host p.selectedRole p.localStorage status data R hr
    rw [handleLogin_submitted host _ p e pw hemail hpw he hp]
    rcases hev with hev | hev
    · rw [hev]
      cases (tryBlock host (.responded status data) p.selectedRole p.localStorage).thrown <;>
        simp [warnings]
    · rw [hev, hnone]
      cases (tryBlock host (.responded status data) p.selectedRole p.localStorage).thrown <;>
        simp [warnings]
  · intro role q
    unfold selectRole
    simp only
    split <;> rfl

/-! ## Lemmas on class lists -/

theorem mem_classRemove (x t : JsString) (cl : List JsString) :
    x ∈ classRemove t cl ↔ x ∈ cl ∧ x ≠ t := by
  simp [classRemove]

theorem mem_classAdd (x t : JsString) (cl : List JsString) :
    x ∈ classAdd t cl ↔ x ∈ cl ∨ x = t := by
  unfold classAdd
  by_cases h : t ∈ cl
  · simp only [h, if_true]
    constructor
    · exact Or.inl
    · rintro (hx | rfl)
      · exact hx
      · exact h
  · simp [h]

theorem removeTokens_eq_filter (ts cl : List JsString) :
    removeTokens ts cl = cl.filter (fun c => decide (c ∉ ts)) := by
  unfold removeTokens
  induction ts generalizing cl with
  | nil => simp
  | cons t ts ih =>
    rw [List.foldl_cons, ih]
    show List.filter _ (List.filter _ cl) = _
    rw [List.filter_filter]
    congr 1
    funext c
    by_cases h1 : c = t <;> by_cases h2 : c ∈ ts <;> simp [h1, h2]

theorem mem_removeTokens (x : JsString) (ts cl : List JsString) :
    x ∈ removeTokens ts cl ↔ x ∈ cl ∧ x ∉ ts := by
  simp [removeTokens_eq_filter]

theorem mem_addTokens (x : JsString) (ts cl : List JsString) :
    x ∈ addTokens ts cl ↔ x ∈ cl ∨ x ∈ ts := by
  unfold addTokens
  induction ts generalizing cl with
  | nil => simp
  | cons t ts ih =>
    rw [List.foldl_cons, ih, mem_classAdd, List.mem_cons]
    tauto

theorem addTokens_of_subset (ts cl : List JsString) (h : ∀ t ∈ ts, t ∈ cl) :
    addTokens ts cl = cl := by
  unfold addTokens
  induction ts with
  | nil => rfl
  | cons t ts ih =>
    have ht : t ∈ cl := h t (List.mem_cons_self t ts)
    have hadd : classAdd t cl = cl := by simp [classAdd, ht]
    rw [List.foldl_cons, hadd]
    exact ih (fun u hu => h u (List.mem_cons_of_mem t hu))

theorem removeTokens_of_disjoint (ts cl : List JsString) (h : ∀ t ∈ ts, t ∉ cl) :
    removeTokens ts cl = cl := by
  rw [removeTokens_eq_filter, List.filter_eq_self]
  intro c hc
  simp only [decide_eq_true_eq]
  intro hcts
  exact h c hcts hc

/-- Adding tokens that are pairwise distinct and all absent appends them. -/
theorem addTokens_append (ts cl : List JsString) (hnodup : ts.Nodup)
    (h : ∀ t ∈ ts, t ∉ cl) : addTokens ts cl = cl ++ ts := by
  unfold addTokens
  induction ts generalizing cl with
  | nil => simp
  | cons t ts ih =>
    have ht : t ∉ cl := h t (List.mem_cons_self t ts)
    have hnd := List.nodup_cons.mp hnodup
    have hadd : classAdd t cl = cl ++ [t] := by simp [classAdd, ht]
    rw [List.foldl_cons, hadd, ih (cl ++ [t]) hnd.2]
    · simp
    · intro u hu hmem
      rcases List.mem_append.mp hmem with h1 | h1
      · exact h u (List.mem_cons_of_mem t hu) h1
      · simp only [List.mem_singleton] at h1
        subst h1
        exact hnd.1 hu

theorem removeTokens_append (ts a b : List JsString) :
    removeTokens ts (a ++ b) = removeTokens ts a ++ removeTokens ts b := by
  simp [removeTokens_eq_filter]

theorem removeTokens_self (ts : List JsString) : removeTokens ts ts = [] := by
  rw [removeTokens_eq_filter, List.filter_eq_nil_iff]
  intro c hc
  simp [hc]

theorem removeTokens_comm (ts us cl : List JsString) :
    removeTokens ts (removeTokens us cl) = removeTokens us (removeTokens ts cl) := by
  simp only [removeTokens_eq_filter, List.filter_filter]
  congr 1
  funext c
  exact Bool.and_comm _ _

theorem removeTokens_idem (ts cl : List JsString) :
    removeTokens ts (removeTokens ts cl) = removeTokens ts cl := by
  simp only [removeTokens_eq_filter, List.filter_filter]
  congr 1
  funext c
  simp

/-- Removing tokens commutes with adding other tokens. -/
theorem removeTokens_addTokens_comm (hs ts cl : List JsString) (h : ∀ t ∈ ts, t ∉ hs) :
    removeTokens hs (addTokens ts cl) = addTokens ts (removeTokens hs cl) := by
  unfold addTokens
  induction ts generalizing cl with
  | nil => rfl
  | cons t ts ih =>
    have ht : t ∉ hs := h t (List.mem_cons_self t ts)
    simp only [List.foldl_cons]
    rw [ih (classAdd t cl) (fun u hu => h u (List.mem_cons_of_mem t hu))]
    congr 1
    unfold classAdd
    by_cases hmem : t ∈ cl
    · have : t ∈ removeTokens hs cl := (mem_removeTokens t hs cl).mpr ⟨hmem, ht⟩
      simp [hmem, this]
    · have : t ∉ removeTokens hs cl := fun hx => hmem ((mem_removeTokens t hs cl).mp hx).1
      simp only [hmem, this, if_false, removeTokens_append]
      rw [removeTokens_of_disjoint hs [t]]
      intro u hu hmem2
      simp only [List.mem_singleton] at hmem2
      subst hmem2
      exact ht hu

theorem removeTokens_classAdd_same (t : JsString) (cl : List JsString) :
    removeTokens [t] (addTokens [t] cl) = removeTokens [t] cl := by
  show removeTokens [t] (classAdd t cl) = _
  unfold classAdd
  by_cases h : t ∈ cl
  · simp [h]
  · simp only [h, if_false, removeTokens_append, removeTokens_self, List.append_nil]

theorem borderWhite_not_active : js "border-white" ∉ activeClasses := by decide
theorem roleCard_not_active : js "role-card" ∉ activeClasses := by decide
theorem activeClasses_nodup : activeClasses.Nodup := by decide

/-- Line 9-10 applied twice is line 9-10 applied once. -/
theorem reset_idem (cl : List JsString) :
    addTokens [js "border-white"] (removeTokens activeClasses
        (addTokens [js "border-white"] (removeTokens activeClasses cl))) =
      addTokens [js "border-white"] (removeTokens activeClasses cl) := by
  rw [removeTokens_of_disjoint activeClasses, addTokens_of_subset]
  · intro t ht
    rw [mem_addTokens]
    exact Or.inr ht
  · intro t ht hmem
    rw [mem_addTokens, mem_removeTokens] at hmem
    rcases hmem with ⟨_, h⟩ | h
    · exact h ht
    · simp only [List.mem_singleton] at h
      subst h
      exact borderWhite_not_active ht

/-- Line 15-16 applied twice is line 15-16 applied once. -/
theorem activate_idem (cl : List JsString) :
    removeTokens [js "border-white"] (addTokens activeClasses
        (removeTokens [js "border-white"] (addTokens activeClasses cl))) =
      removeTokens [js "border-white"] (addTokens activeClasses cl) := by
  rw [addTokens_of_subset activeClasses, removeTokens_idem]
  intro t ht
  rw [mem_removeTokens, mem_addTokens]
  refine ⟨Or.inr ht, ?_⟩
  intro h
  simp only [List.mem_singleton] at h
  subst h
  exact borderWhite_not_active ht

/-- The classes of a role card that is also the active card, after lines 9-16. -/
theorem activate_reset (cl : List JsString) :
    removeTokens [js "border-white"] (addTokens activeClasses
        (addTokens [js "border-white"] (removeTokens activeClasses cl))) =
      removeTokens [js "border-white"] (removeTokens activeClasses cl) ++ activeClasses := by
  rw [addTokens_append activeClasses _ activeClasses_nodup, removeTokens_append,
    removeTokens_classAdd_same, removeTokens_of_disjoint [js "border-white"] activeClasses]
  · intro t ht hmem
    simp only [List.mem_singleton] at ht
    subst ht
    exact borderWhite_not_active hmem
  · intro t ht hmem
    rw [mem_addTokens, mem_removeTokens] at hmem
    rcases hmem with ⟨_, h⟩ | h
    · exact h ht
    · simp only [List.mem_singleton] at h
      subst h
      exact borderWhite_not_active ht

theorem activate_reset_idem (cl : List JsString) :
    removeTokens [js "border-white"] (addTokens activeClasses
        (addTokens [js "border-white"] (removeTokens activeClasses
          (removeTokens [js "border-white"] (addTokens activeClasses
            (addTokens [js "border-white"] (removeTokens activeClasses cl))))))) =
      removeTokens [js "border-white"] (addTokens activeClasses
        (addTokens [js "border-white"] (removeTokens activeClasses cl))) := by
  have key : ∀ X, removeTokens [js "border-white"] (removeTokens activeClasses X) =
      removeTokens activeClasses (removeTokens [js "border-white"] X) :=
    fun X => removeTokens_comm _ _ X
  rw [activate_reset cl, activate_reset, removeTokens_append, removeTokens_self,
    List.append_nil]
  simp only [key, removeTokens_idem]

theorem hidden_add_active (cl : List JsString) :
    removeTokens [js "hidden"] (addTokens activeClasses cl) =
      addTokens activeClasses (removeTokens [js "hidden"] cl) :=
  removeTokens_addTokens_comm _ _ _ (by decide)

theorem hidden_add_borderWhite (cl : List JsString) :
    removeTokens [js "hidden"] (addTokens [js "border-white"] cl) =
      addTokens [js "border-white"] (removeTokens [js "hidden"] cl) :=
  removeTokens_addTokens_comm _ _ _ (by decide)

theorem hidden_remove_active (cl : List JsString) :
    removeTokens [js "hidden"] (removeTokens activeClasses cl) =
      removeTokens activeClasses (removeTokens [js "hidden"] cl) :=
  removeTokens_comm _ _ _

theorem hidden_remove_borderWhite (cl : List JsString) :
    removeTokens [js "hidden"] (removeTokens [js "border-white"] cl) =
      removeTokens [js "border-white"] (removeTokens [js "hidden"] cl) :=
  removeTokens_comm _ _ _

theorem stepClasses_idem (br ba bf : Bool) (cl : List JsString) :
    stepClasses br ba bf (stepClasses br ba bf cl) = stepClasses br ba bf cl := by
  cases br <;> cases ba <;> cases bf <;>
    simp only [stepClasses, if_true, if_false, Bool.false_eq_true, hidden_add_active,
      hidden_add_borderWhite, hidden_remove_active, hidden_remove_borderWhite,
      removeTokens_idem, reset_idem, activate_idem, activate_reset_idem]

theorem roleCard_mem_stepClasses (br ba bf : Bool) (cl : List JsString) :
    js "role-card" ∈ stepClasses br ba bf cl ↔ js "role-card" ∈ cl := by
  have h1 : js "role-card" ∉ activeClasses := roleCard_not_active
  have h2 : js "role-card" ≠ js "border-white" := by decide
  have h3 : js "role-card" ≠ js "hidden" := by decide
  cases br <;> cases ba <;> cases bf <;>
    simp [stepClasses, mem_removeTokens, mem_addTokens, h1, h2, h3]

/-! ## `selectRole` as one pass over the document -/

theorem map_eq_imapFrom (k : Nat) (h : Element → Element) (doc : List Element) :
    doc.map h = imapFrom k (fun _ e => h e) doc := by
  induction doc generalizing k with
  | nil => rfl
  | cons e es ih => simp [imapFrom, ← ih]

theorem imapFrom_of_lt (k m : Nat) (f : Element → Element) (doc : List Element)
    (hm : k < m) : imapFrom m (fun j e => if j = k then f e else e) doc = doc := by
  induction doc generalizing m with
  | nil => rfl
  | cons x xs ih =>
    have : ¬ m = k := by omega
    simp only [imapFrom, this, if_false]
    rw [ih (m + 1) (by omega)]

theorem modifyAt_eq_imapFrom (k i : Nat) (f : Element → Element) (doc : List Element) :
    modifyAt i f doc = imapFrom k (fun j e => if j = k + i then f e else e) doc := by
  induction doc generalizing k i with
  | nil => simp [modifyAt, imapFrom]
  | cons e es ih =>
    cases i with
    | zero =>
      simp only [modifyAt, imapFrom, Nat.add_zero, if_true]
      rw [imapFrom_of_lt k (k + 1) f es (by omega)]
    | succ i =>
      simp only [modifyAt, imapFrom]
      have : ¬ k = k + (i + 1) := by omega
      simp only [this, if_false]
      rw [ih (k + 1) i]
      have hfun : (fun j e => if j = k + 1 + i then f e else e) =
          (fun j e => if j = k + (i + 1) then f e else e) := by
        funext j e
        have : (j = k + 1 + i) = (j = k + (i + 1)) := by
          apply propext; constructor <;> intro h <;> omega
        simp only [this]
      rw [hfun]

theorem imapFrom_id (k : Nat) (doc : List Element) : imapFrom k (fun _ e => e) doc = doc := by
  induction doc generalizing k with
  | nil => rfl
  | cons e es ih => simp [imapFrom, ih]

/-- A conditional write through an optional reference, as one pass. -/
theorem optional_modifyAt (a : Option Nat) (f : Element → Element) (doc : List Element) :
    (match a with
     | some i => modifyAt i f doc
     | none => doc) = imapFrom 0 (fun j e => if a = some j then f e else e) doc := by
  cases a with
  | none => simp [imapFrom_id]
  | some i =>
    simp only [modifyAt_eq_imapFrom 0 i f doc, Nat.zero_add, Option.some.injEq]
    congr 1
    funext j e
    have : (i = j) = (j = i) := by
      apply propext; constructor <;> intro h <;> omega
    simp only [this]

theorem imapFrom_imapFrom (k : Nat) (F G : Nat → Element → Element) (doc : List Element) :
    imapFrom k F (imapFrom k G doc) = imapFrom k (fun j e => F j (G j e)) doc := by
  induction doc generalizing k with
  | nil => rfl
  | cons e es ih => simp [imapFrom, ih]

theorem findIndex_imapFrom (q : Element → Bool) (F : Nat → Element → Element)
    (hq : ∀ j e, q (F j e) = q e) (k : Nat) (doc : List Element) :
    findIndex q (imapFrom k F doc) = findIndex q doc := by
  induction doc generalizing k with
  | nil => rfl
  | cons e es ih => simp [imapFrom, findIndex, hq, ih]

/-- The element found after a pass that does not change what is searched for is the
element found before, transformed. -/
theorem find_imapFrom (q : Element → Bool) (F : Nat → Element → Element)
    (hq : ∀ j e, q (F j e) = q e) (k i : Nat) (doc : List Element)
    (hi : findIndex q doc = some i) :
    (imapFrom k F doc).find? q = (doc.find? q).map (F (k + i)) := by
  induction doc generalizing k i with
  | nil => simp [findIndex] at hi
  | cons e es ih =>
    by_cases h : q e = true
    · have h2 : q (F k e) = true := by rw [hq]; exact h
      simp only [findIndex, h, if_true, Option.some.injEq] at hi
      subst hi
      simp [imapFrom, List.find?, h, h2]
    · simp only [Bool.not_eq_true] at h
      have h2 : q (F k e) = false := by rw [hq]; exact h
      simp only [findIndex, h, Bool.false_eq_true, if_false, Option.map_eq_some'] at hi
      obtain ⟨j, hj, rfl⟩ := hi
      simp only [imapFrom, List.find?, h, h2]
      rw [ih (k + 1) j hj]
      have : k + 1 + j = k + (j + 1) := by omega
      rw [this]

theorem getElementById_imapFrom (F : Nat → Element → Element)
    (hid : ∀ j e, (F j e).id = e.id) (doc : List Element) (x : JsString) :
    getElementById (imapFrom 0 F doc) x = getElementById doc x := by
  unfold getElementById
  exact findIndex_imapFrom _ F (fun j e => by simp only [hid]) 0 doc

theorem modifyAt_eq_imapFrom_zero (i : Nat) (g : Element → Element) (doc : List Element) :
    modifyAt i g doc = imapFrom 0 (fun j e => if j = i then g e else e) doc := by
  have h := modifyAt_eq_imapFrom 0 i g doc
  simp only [Nat.zero_add] at h
  exact h

theorem cardPass_id (e : Element) : (cardPass e).id = e.id := by
  unfold cardPass
  split <;> rfl

theorem activePass_id (a : Option Nat) (j : Nat) (e : Element) :
    (activePass a j e).id = e.id := by
  unfold activePass
  split <;> rfl

theorem formPass_id (f j : Nat) (e : Element) : (formPass f j e).id = e.id := by
  unfold formPass
  split <;> rfl

theorem titlePass_id (host : Host) (role : JsString) (t : Option Nat) (j : Nat) (e : Element) :
    (titlePass host role t j e).id = e.id := by
  unfold titlePass
  split <;> rfl

theorem step_compose (host : Host) (role : JsString) (a : Option Nat) (f : Nat)
    (t : Option Nat) (j : Nat) (e : Element) :
    titlePass host role t j (formPass f j (activePass a j (cardPass e))) =
      selectRoleStep host role a f t j e := by
  unfold selectRoleStep stepClasses titlePass formPass activePass cardPass
  by_cases h4 : js "role-card" ∈ e.classList <;> by_cases h3 : a = some j <;>
    by_cases h2 : j = f <;> by_cases h1 : t = some j
  all_goals
    first
      | rw [if_pos h4, decide_eq_true h4]
      | rw [if_neg h4, decide_eq_false h4]
  all_goals
    first
      | simp only [if_neg h3, decide_eq_false h3]
      | simp only [if_pos h3, decide_eq_true h3]
  all_goals
    first
      | simp only [if_neg h1]
      | simp only [if_pos h1]
  all_goals
    first
      | (subst h2; simp only [if_true, decide_True, Bool.false_eq_true, if_false])
      | simp only [if_neg h2, decide_eq_false h2, Bool.false_eq_true, if_false, if_true]
  all_goals simp only [resetCard, activateCard]

theorem selectRole_eq (host : Host) (role : JsString) (p : Page) (f : Nat)
    (hform : getElementById p.document (js "loginForm") = some f) :
    selectRole host role p =
      { page :=
          { selectedRole := some role,
            document := imapFrom 0
              (selectRoleStep host role (getElementById p.document (js "card-" ++ role)) f
                (getElementById p.document (js "selectedRoleTitle")))
              p.document,
            localStorage := p.localStorage },
        events := [.scrollIntoView f],
        uncaught := none } := by
  have h1 : p.document.map
      (fun card => if js "role-card" ∈ card.classList then resetCard card else card) =
      imapFrom 0 (fun _ e => cardPass e) p.document := map_eq_imapFrom 0 cardPass p.document
  have h2 : ∀ (a : Option Nat) (doc : List Element),
      (match a with
       | some activeCard => modifyAt activeCard activateCard doc
       | none => doc) = imapFrom 0 (fun j e => activePass a j e) doc :=
    fun a doc => optional_modifyAt a activateCard doc
  have h3 : ∀ (doc : List Element),
      modifyAt f (fun e => { e with classList := removeTokens [js "hidden"] e.classList }) doc =
        imapFrom 0 (fun j e => formPass f j e) doc :=
    fun doc => modifyAt_eq_imapFrom_zero f _ doc
  have h4 : ∀ (t : Option Nat) (doc : List Element),
      (match t with
       | some title => modifyAt title (fun e => { e with innerText := titleText host role }) doc
       | none => doc) = imapFrom 0 (fun j e => titlePass host role t j e) doc :=
    fun t doc => optional_modifyAt t _ doc
  unfold selectRole
  simp only
  rw [h1, getElementById_imapFrom _ (fun _ e => cardPass_id e), h2, imapFrom_imapFrom,
    getElementById_imapFrom _ (fun j e => by rw [activePass_id, cardPass_id]), hform]
  simp only
  rw [h3, imapFrom_imapFrom,
    getElementById_imapFrom _ (fun j e => by rw [formPass_id, activePass_id, cardPass_id]),
    h4, imapFrom_imapFrom]
  congr 3
  funext j e
  exact step_compose host role _ f _ j e

theorem findIndex_of_find (q : Element → Bool) (doc : List Element) (e : Element)
    (h : doc.find? q = some e) : ∃ i, findIndex q doc = some i := by
  cases hi : findIndex q doc with
  | some i => exact ⟨i, rfl⟩
  | none =>
    rw [(findIndex_none_iff q doc).mp hi] at h
    cases h

theorem selectRoleStep_id (host : Host) (role : JsString) (a : Option Nat) (f : Nat)
    (t : Option Nat) (j : Nat) (e : Element) :
    (selectRoleStep host role a f t j e).id = e.id := rfl

theorem selectRoleStep_idem (host : Host) (role : JsString) (a : Option Nat) (f : Nat)
    (t : Option Nat) (j : Nat) (e : Element) :
    selectRoleStep host role a f t j (selectRoleStep host role a f t j e) =
      selectRoleStep host role a f t j e := by
  simp only [selectRoleStep, roleCard_mem_stepClasses, stepClasses_idem]
  by_cases h : t = some j
  · simp only [if_pos h]
  · simp only [if_neg h]

/-- After `selectRole` the element with id `x` is the one found before, transformed. -/
theorem getElement_selectRole (host : Host) (role : JsString) (p : Page) (f i : Nat)
    (x : JsString) (hform : getElementById p.document (js "loginForm") = some f)
    (hi : getElementById p.document x = some i) :
    getElement (selectRole host role p).page.document x =
      (getElement p.document x).map
        (selectRoleStep host role (getElementById p.document (js "card-" ++ role)) f
          (getElementById p.document (js "selectedRoleTitle")) i) := by
  rw [selectRole_eq host role p f hform]
  unfold getElement
  have h := find_imapFrom (fun e => decide (e.id = x))
    (selectRoleStep host role (getElementById p.document (js "card-" ++ role)) f
      (getElementById p.document (js "selectedRoleTitle")))
    (fun j e => by simp only [selectRoleStep_id]) 0 i p.document hi
  simp only [Nat.zero_add] at h
  exact h

/-- C8: on a page that has the login form, `selectRole(role)` leaves `selectedRole` equal to
`role` and the form without the class `hidden`, whatever was selected and whether or not the
form was hidden before, it throws nothing, and running it again on the resulting page gives
the same page (and the same scroll request). -/
theorem selectRole_sets_role_and_shows_form (host : Host) (role : JsString) (p : Page)
    (formEl : Element) (hform : getElement p.document (js "loginForm") = some formEl) :
    (selectRole host role p).page.selectedRole = some role ∧
      (∃ form', getElement (selectRole host role p).page.document (js "loginForm") = some form' ∧
        js "hidden" ∉ form'.classList) ∧
      (selectRole host role p).uncaught = none ∧
      selectRole host role (selectRole host role p).page = selectRole host role p := by
  obtain ⟨f, hf⟩ := findIndex_of_find _ p.document formEl hform
  have hf' : getElementById p.document (js "loginForm") = some f := hf
  have hlookup : ∀ x, getElementById (selectRole host role p).page.document x =
      getElementById p.document x := by
    intro x
    rw [selectRole_eq host role p f hf']
    exact getElementById_imapFrom _ (fun j e => selectRoleStep_id host role _ f _ j e) _ x
  refine ⟨?_, ?_, ?_, ?_⟩
  · rw [selectRole_eq host role p f hf']
  · refine ⟨selectRoleStep host role (getElementById p.document (js "card-" ++ role)) f
      (getElementById p.document (js "selectedRoleTitle")) f formEl, ?_, ?_⟩
    · rw [getElement_selectRole host role p f f (js "loginForm") hf' hf', hform]
      rfl
    · intro hmem
      simp only [selectRoleStep, stepClasses, decide_True, if_true] at hmem
      rw [mem_removeTokens] at hmem
      exact hmem.2 (List.mem_singleton.mpr rfl)
  · rw [selectRole_eq host role p f hf']
  · have hf'' : getElementById (selectRole host role p).page.document (js "loginForm") =
        some f := by rw [hlookup]; exact hf'
    rw [selectRole_eq host role (selectRole host role p).page f hf'', hlookup, hlookup]
    rw [selectRole_eq host role p f hf']
    simp only [imapFrom_imapFrom, selectRoleStep_idem]

/-- C9: on a page that has the login form and the title element, `selectRole(role)` sets the
title text to the upper-casing of the first code unit of `role`, followed by the rest of
`role` unchanged, followed by ` Login`; first code unit and rest together are `role`. -/
theorem selectRole_title (host : Host) (role : JsString) (p : Page)
    (formEl titleEl : Element)
    (hform : getElement p.document (js "loginForm") = some formEl)
    (htitle : getElement p.document (js "selectedRoleTitle") = some titleEl) :
    (∃ title', getElement (selectRole host role p).page.document (js "selectedRoleTitle") =
        some title' ∧
        title'.innerText = host.toUpperCase (role.take 1) ++ role.drop 1 ++ js " Login") ∧
      role.take 1 ++ role.drop 1 = role := by
  obtain ⟨f, hf⟩ := findIndex_of_find _ p.document formEl hform
  obtain ⟨t, ht⟩ := findIndex_of_find _ p.document titleEl htitle
  have hf' : getElementById p.document (js "loginForm") = some f := hf
  have ht' : getElementById p.document (js "selectedRoleTitle") = some t := ht
  refine ⟨⟨selectRoleStep host role (getElementById p.document (js "card-" ++ role)) f
    (getElementById p.document (js "selectedRoleTitle")) t titleEl, ?_, ?_⟩,
    List.take_append_drop 1 role⟩
  · rw [getElement_selectRole host role p f t (js "selectedRoleTitle") hf' ht', htitle]
    rfl
  · simp only [selectRoleStep, ht', if_true, titleText, charAt, slice, List.drop_zero]

/-! ## The theorems at the sample page -/

/-- C1 (amended) at the sample page, the sample body and a storage with room for the three
entries: they read back `T`, `staff` and `Jane Doe`, and there is one navigation, to
`/dashboard`. -/
theorem handleLogin_persists_session_witness :
    (handleLogin (quotaHost 100) (.responded 200 sampleBody) samplePage).page.localStorage =
        setItem (js "userFullName") (js "Jane Doe")
          (setItem (js "userRole") (js "staff")
            (setItem (js "sb-access-token") (js "T") samplePage.localStorage)) ∧
      getItem (js "sb-access-token")
        (handleLogin (quotaHost 100) (.responded 200 sampleBody) samplePage).page.localStorage =
        some (js "T") ∧
      getItem (js "userRole")
        (handleLogin (quotaHost 100) (.responded 200 sampleBody) samplePage).page.localStorage =
        some (js "staff") ∧
      getItem (js "userFullName")
        (handleLogin (quotaHost 100) (.responded 200 sampleBody) samplePage).page.localStorage =
        some (js "Jane Doe") ∧
      navigations (handleLogin (quotaHost 100) (.responded 200 sampleBody) samplePage).events =
        [js "/dashboard"] ∧
      (handleLogin (quotaHost 100) (.responded 200 sampleBody) samplePage).uncaught = none :=
  handleLogin_persists_session (quotaHost 100) samplePage
    (sampleEmailInput (js "jane@example.org")) (samplePasswordInput (js "secret")) 200
    sampleBody sampleSession (js "T") (js "staff") (js "Jane Doe")
    (by decide) (by decide) (by decide) (by decide) (by decide) rfl rfl rfl rfl
    (by unfold AcceptsSession; decide)

/-- C2 (amended) at the sample page, the sample body and a storage that refuses the role
entry: an alert is shown, and the store is the old one or holds what was written before the
throw. -/
theorem handleLogin_store_outcomes_witness :
    alerts (handleLogin (quotaHost 20) (.responded 200 sampleBody) samplePage).events ≠ [] ∧
      ((handleLogin (quotaHost 20) (.responded 200 sampleBody) samplePage).page.localStorage =
          samplePage.localStorage ∨
        HalfWritten (quotaHost 20) (.responded 200 sampleBody) samplePage.localStorage
          (handleLogin (quotaHost 20) (.responded 200 sampleBody)
            samplePage).page.localStorage) :=
  ⟨by decide,
    (handleLogin_store_outcomes (quotaHost 20) (.responded 200 sampleBody) samplePage).2
      (by decide)⟩

/-- C3 at the sample page, status 401 and the body `{error: "bad credentials"}`. -/
theorem handleLogin_rejected_credentials_witness :
    (handleLogin sampleHost
        (.responded 401 (.obj [(js "error", .str (js "bad credentials"))]))
        samplePage).page.localStorage = samplePage.localStorage ∧
      alerts (handleLogin sampleHost
        (.responded 401 (.obj [(js "error", .str (js "bad credentials"))]))
        samplePage).events = [js "bad credentials"] ∧
      navigations (handleLogin sampleHost
        (.responded 401 (.obj [(js "error", .str (js "bad credentials"))]))
        samplePage).events = [] ∧
      (handleLogin sampleHost
        (.responded 401 (.obj [(js "error", .str (js "bad credentials"))]))
        samplePage).page.document =
        (match querySelectorLoginButton samplePage.document with
         | some b => modifyAt b (fun el => { el with disabled := false }) samplePage.document
         | none => samplePage.document) ∧
      loginButton (handleLogin sampleHost
        (.responded 401 (.obj [(js "error", .str (js "bad credentials"))]))
        samplePage).page.document =
        (loginButton samplePage.document).map (fun b => { b with disabled := false }) :=
  handleLogin_rejected_credentials sampleHost samplePage
    (sampleEmailInput (js "jane@example.org")) (samplePasswordInput (js "secret")) 401
    (.obj [(js "error", .str (js "bad credentials"))]) (js "bad credentials")
    (by decide) (by decide) (by decide) (by decide) (by decide) rfl (by decide)

/-- C4 at the sample page with the email left empty. -/
theorem handleLogin_validation_witness :
    handleLogin sampleHost (.responded 200 sampleBody)
        { selectedRole := none, document := sampleDocument [] (js "secret"),
          localStorage := [] } =
        { page := { selectedRole := none, document := sampleDocument [] (js "secret"),
                    localStorage := [] },
          events := [.alert (js "Please enter both email and password.")],
          uncaught := none } ∧
      fetches (handleLogin sampleHost (.responded 200 sampleBody)
        { selectedRole := none, document := sampleDocument [] (js "secret"),
          localStorage := [] }).events = [] ∧
      navigations (handleLogin sampleHost (.responded 200 sampleBody)
        { selectedRole := none, document := sampleDocument [] (js "secret"),
          localStorage := [] }).events = [] ∧
      alerts (handleLogin sampleHost (.responded 200 sampleBody)
        { selectedRole := none, document := sampleDocument [] (js "secret"),
          localStorage := [] }).events = [js "Please enter both email and password."] :=
  handleLogin_validation sampleHost (.responded 200 sampleBody)
    { selectedRole := none, document := sampleDocument [] (js "secret"), localStorage := [] }
    (sampleEmailInput []) (samplePasswordInput (js "secret")) (by decide) (by decide)
    (Or.inl rfl)

/-- C5 (amended) at the sample page and a success body without `role`. -/
theorem handleLogin_missing_role_witness :
    (handleLogin sampleHost
        (.responded 200 (.obj [(js "session", sampleSession),
          (js "full_name", .str (js "Jane Doe"))])) samplePage).page.localStorage =
        setItem (js "userFullName") (js "Jane Doe")
          (setItem (js "userRole") (js "undefined")
            (setItem (js "sb-access-token") (js "T") samplePage.localStorage)) ∧
      alerts (handleLogin sampleHost
        (.responded 200 (.obj [(js "session", sampleSession),
          (js "full_name", .str (js "Jane Doe"))])) samplePage).events = [] ∧
      navigations (handleLogin sampleHost
        (.responded 200 (.obj [(js "session", sampleSession),
          (js "full_name", .str (js "Jane Doe"))])) samplePage).events = [js "/dashboard"] :=
  handleLogin_missing_role sampleHost samplePage (sampleEmailInput (js "jane@example.org"))
    (samplePasswordInput (js "secret")) 200
    [(js "session", sampleSession), (js "full_name", .str (js "Jane Doe"))] sampleSession
    (js "T") (js "Jane Doe") (by decide) (by decide) (by decide) (by decide) (by decide)
    rfl rfl rfl rfl (by unfold AcceptsSession; decide)

/-- C6 (amended) at the sample page: a rejected `fetch` whose error says `Failed to fetch`
makes the alert say `Failed to fetch`. -/
theorem handleLogin_transport_failure_witness :
    alerts (handleLogin sampleHost (.fetchRejected (js "Failed to fetch")) samplePage).events =
      [js "Failed to fetch"] :=
  (handleLogin_transport_failure sampleHost samplePage (sampleEmailInput (js "jane@example.org"))
    (samplePasswordInput (js "secret")) (js "Failed to fetch") 502
    (by decide) (by decide) (by decide) (by decide)).1

/-- C7 (amended) at the sample page with `student` selected, the sample body, whose role is
`staff`, and a storage with room for the three entries. -/
theorem handleLogin_server_role_wins_witness :
    getItem (js "userRole") (handleLogin (quotaHost 100) (.responded 200 sampleBody)
        { selectedRole := some (js "student"), document := samplePage.document,
          localStorage := [] }).page.localStorage = some (js "staff") ∧
      alerts (handleLogin (quotaHost 100) (.responded 200 sampleBody)
        { selectedRole := some (js "student"), document := samplePage.document,
          localStorage := [] }).events = [] :=
  have h := (handleLogin_server_role_wins (quotaHost 100) samplePage.document []
    (sampleEmailInput (js "jane@example.org")) (samplePasswordInput (js "secret")) 200
    sampleBody sampleSession (js "student") (js "T") (js "staff") (js "Jane Doe")
    (by decide) (by decide) (by decide) (by decide) (by decide) (by decide)
    rfl rfl rfl rfl).1 (by unfold AcceptsSession; decide)
  ⟨h.1, h.2.2.2⟩

/-- C8 at the sample page, whose form is hidden, and the role `staff`. -/
theorem selectRole_sets_role_and_shows_form_witness :
    (selectRole sampleHost (js "staff") samplePage).page.selectedRole = some (js "staff") ∧
      (∃ form', getElement (selectRole sampleHost (js "staff") samplePage).page.document
          (js "loginForm") = some form' ∧ js "hidden" ∉ form'.classList) ∧
      (selectRole sampleHost (js "staff") samplePage).uncaught = none ∧
      selectRole sampleHost (js "staff") (selectRole sampleHost (js "staff") samplePage).page =
        selectRole sampleHost (js "staff") samplePage :=
  selectRole_sets_role_and_shows_form sampleHost (js "staff") samplePage sampleForm
    (by decide)

/-- C9 at the sample page and the role `staff`: the title reads `Staff Login`. -/
theorem selectRole_title_witness :
    ((∃ title', getElement (selectRole sampleHost (js "staff") samplePage).page.document
          (js "selectedRoleTitle") = some title' ∧
        title'.innerText = sampleHost.toUpperCase ((js "staff").take 1) ++
          (js "staff").drop 1 ++ js " Login") ∧
      (js "staff").take 1 ++ (js "staff").drop 1 = js "staff") ∧
      sampleHost.toUpperCase ((js "staff").take 1) ++ (js "staff").drop 1 ++ js " Login" =
        js "Staff Login" :=
  ⟨selectRole_title sampleHost (js "staff") samplePage sampleForm sampleTitle
    (by decide) (by decide), by decide⟩

/-- C10 (amended) at the sample page with `student` selected, the sample body, whose role
is `staff`, and a storage with room for the three entries: one notice is recorded. -/
theorem handleLogin_reconciliation_notice_witness :
    warnings (handleLogin (quotaHost 100) (.responded 200 sampleBody)
        { selectedRole := some (js "student"), document := samplePage.document,
          localStorage := [] }).events =
      [js "User selected student but account is staff. Redirecting based on DB role."] :=
  have h := (handleLogin_reconciliation_notice (quotaHost 100)
    { selectedRole := some (js "student"), document := samplePage.document,
      localStorage := [] }
    (sampleEmailInput (js "jane@example.org")) (samplePasswordInput (js "secret")) 200
    sampleBody sampleSession (js "T") (js "staff") (js "Jane Doe")
    (by decide) (by decide) (by decide) (by decide) (by decide) rfl rfl rfl rfl).1
    (by unfold AcceptsSession; decide)
  h.trans (by decide)

end SkillTrack
